import Mathlib

/-!
# Credential delegation (`src/copy/delegation/delegation2.cpp`)

A shallow embedding of `err2davix`, `get_delegated_credentials`, `renew_proxy` and
`DavixDelegation::delegate_v2`.

The functions talk to gSOAP, to the delegation endpoint, to the clock and to
gridsite's proxy signer.  These collaborators are taken as parameters (`Ext`): every
one of them reads and updates an abstract world state `σ`, so that an answer may
depend on everything that happened before it.  The caller's error output, and a trace
of every external call together with its arguments and its answer, are threaded
through explicitly (`St`).

`time_t` and `int` values are integers; `time_t` subtraction and the comparison of a
`time_t` with an `int` are exact (signed overflow is undefined in C++).  Exhaustion of
memory is not modelled: `soap_strdup` returns a null pointer only for a null argument.
Log output (`DAVIX_LOG`) does not influence the control flow and is left out.

The header option of the command line tools (`set_header_field` of
`src/tools/davix_tool_params.cpp`) is embedded in the namespace `Tool`.
-/

namespace Davix

/-- Status codes of `StatusCode::Code` that the sources under study use. -/
inductive StatusCode where
  | DelegationError
  | InvalidArgument
  deriving DecidableEq, Repr

/-- The structured error: scope, status code and message. -/
structure DavixError where
  scope : String
  code : StatusCode
  msg : String
  deriving DecidableEq, Repr

/-- gSOAP's success status. -/
def SOAP_OK : Int := 0

/-- gridsite's success status. -/
def GRST_RET_OK : Int := 0

/-- One observable step of an attempt: an external call with its arguments and its
answer, or a write to the caller's error output. -/
inductive Event where
  /-- `soap_new()` -/
  | soap_new
  /-- `soap_ssl_client_context(soap, SOAP_SSL_DEFAULT, keyfile, password, cafile, capath, NULL)`
  and its return value -/
  | soap_ssl_client_context (keyfile password cafile capath : String) (ret : Int)
  /-- `soap_call_tns2__getTerminationTime(soap, endpoint, NULL, dlg_id, resp)`, its status
  and `resp._getTerminationTimeReturn` -/
  | getTerminationTime (endpoint dlg_id : String) (ret : Int) (resp : Int)
  /-- `time(NULL)` and its value -/
  | time (now : Int)
  /-- `soap_call_tns2__renewProxyReq(soap, endpoint, NULL, dlg_id, resp)`, its status and
  `resp._renewProxyReqReturn` -/
  | renewProxyReq (endpoint dlg_id : String) (ret : Int) (resp : String)
  /-- `soap_call_tns2__getProxyReq(soap, endpoint, NULL, dlg_id, resp)`, its status and
  `resp._getProxyReqReturn` -/
  | getProxyReq (endpoint dlg_id : String) (ret : Int) (resp : String)
  /-- `GRSTx509MakeProxyCert(&certtxt, stderr, reqtxt, cert, key, lifetime)`, its status
  and the text left in `certtxt` (`none` for a null pointer) -/
  | GRSTx509MakeProxyCert (reqtxt cert key : String) (lifetime : Int) (ret : Int)
      (certtxt : Option String)
  /-- `soap_call_tns2__putProxy(soap, endpoint, NULL, dlg_id, proxy, resp)` and its status -/
  | putProxy (endpoint dlg_id proxy : String) (ret : Int)
  /-- `DavixError::setupError(err, scope, code, msg)` -/
  | setupError (e : DavixError)
  /-- `soap_free(soap)` -/
  | soap_free
  /-- `soap_done(soap)` -/
  | soap_done
  deriving DecidableEq, Repr

/-- The external collaborators of the delegation code, over a world state `σ`. -/
structure Ext (σ : Type) where
  /-- the constant `DELEGATION_SCOPE` of `delegation.hpp` -/
  DELEGATION_SCOPE : String
  /-- `soap_sprint_fault(soap, buf, len)`: the text left in a buffer of `len` bytes -/
  soap_sprint_fault : σ → Nat → String
  /-- `soap_ssl_client_context`: key file, password, CA file, CA path -/
  soap_ssl_client_context : σ → String → String → String → String → Int × σ
  /-- `soap_call_tns2__getTerminationTime`: endpoint, identifier; status and reported
  termination time -/
  soap_call_tns2__getTerminationTime : σ → String → String → (Int × Int) × σ
  /-- `time(NULL)` -/
  time : σ → Int
  /-- `soap_call_tns2__renewProxyReq`: endpoint, identifier; status and request text -/
  soap_call_tns2__renewProxyReq : σ → String → String → (Int × String) × σ
  /-- `soap_call_tns2__getProxyReq`: endpoint, identifier; status and request text -/
  soap_call_tns2__getProxyReq : σ → String → String → (Int × String) × σ
  /-- `GRSTx509MakeProxyCert`: request text, certificate, key, lifetime; status and
  certificate text -/
  GRSTx509MakeProxyCert : σ → String → String → String → Int → (Int × Option String) × σ
  /-- `soap_call_tns2__putProxy`: endpoint, identifier, certificate text -/
  soap_call_tns2__putProxy : σ → String → String → String → Int × σ

/-- The state threaded through an attempt: the world (session included), the caller's
error output `*err`, and the trace of the steps taken so far, oldest first. -/
structure St (σ : Type) where
  soap : σ
  err : Option DavixError
  trace : List Event

variable {σ : Type}

/-- Append one event to the trace. -/
def St.log (st : St σ) (e : Event) : St σ :=
  { st with trace := st.trace ++ [e] }

/-- Modelled from the spec: `DavixError::setupError` is defined outside the sources at
hand; it is the factory `setupError(scope, code, message)` that writes a structured
error with these three fields into the caller-supplied error output. -/
def DavixError.setupError (st : St σ) (scope : String) (code : StatusCode) (msg : String) :
    St σ :=
  { st with err := some ⟨scope, code, msg⟩,
            trace := st.trace ++ [Event.setupError ⟨scope, code, msg⟩] }

/-- `soap_strdup(soap, s)`: a copy of the text, a null pointer for a null pointer. -/
def soap_strdup (s : Option String) : Option String := s

/-- `err2davix`, lines 10-16. -/
def err2davix (E : Ext σ) (st : St σ) (pre : String) : St σ :=
  let err_buffer := E.soap_sprint_fault st.soap 512
  DavixError.setupError st E.DELEGATION_SCOPE StatusCode.DelegationError (pre ++ err_buffer)

/-- `get_delegated_credentials`, lines 19-35.  The result is `none` for `false`, and
`some lifetime` for `true` with the value stored through the `lifetime` pointer. -/
def get_delegated_credentials (E : Ext σ) (st : St σ) (endpoint dlg_id : String) :
    Option Int × St σ :=
  let r := E.soap_call_tns2__getTerminationTime st.soap endpoint dlg_id
  let st1 : St σ :=
    { st with soap := r.2,
              trace := st.trace ++ [Event.getTerminationTime endpoint dlg_id r.1.1 r.1.2] }
  if SOAP_OK ≠ r.1.1 then
    (none, st1)
  else
    let now := E.time st1.soap
    (some (r.1.2 - now), st1.log (Event.time now))

/-- `renew_proxy` from line 75 to its end, entered with the request text `certreq`:
signing, duplication and upload. -/
def renew_proxy_sign (E : Ext σ) (st : St σ) (endpoint ucred dlg_id : String) (lifetime : Int)
    (certreq : String) : St σ :=
  -- lines 75-85
  if !certreq.isEmpty then
    let g := E.GRSTx509MakeProxyCert st.soap certreq ucred ucred lifetime
    let st1 : St σ :=
      { st with soap := g.2,
                trace := st.trace ++
                  [Event.GRSTx509MakeProxyCert certreq ucred ucred lifetime g.1.1 g.1.2] }
    -- lines 86-89
    if g.1.1 ≠ GRST_RET_OK then
      DavixError.setupError st1 E.DELEGATION_SCOPE StatusCode.DelegationError
        "GRSTx509MakeProxyCert failed"
    else
      -- lines 91-95
      match soap_strdup g.1.2 with
      | none =>
        DavixError.setupError st1 E.DELEGATION_SCOPE StatusCode.DelegationError
          "Could not duplicate"
      | some scerttxt =>
        -- lines 97-101
        let p := E.soap_call_tns2__putProxy st1.soap endpoint dlg_id scerttxt
        let st2 : St σ :=
          { st1 with soap := p.2,
                     trace := st1.trace ++ [Event.putProxy endpoint dlg_id scerttxt p.1] }
        if SOAP_OK ≠ p.1 then err2davix E st2 "Renewal failed" else st2
  else
    DavixError.setupError st E.DELEGATION_SCOPE StatusCode.DelegationError
      "Could not get a request"

/-- `renew_proxy` from line 62 to its end, entered with the value `certreq` has
there: the request for a fresh signing request when `certreq` is empty, then the
rest. -/
def renew_proxy_get (E : Ext σ) (st : St σ) (endpoint ucred dlg_id : String) (lifetime : Int)
    (certreq : String) : St σ :=
  -- lines 62-73
  if certreq.isEmpty then
    let r := E.soap_call_tns2__getProxyReq st.soap endpoint dlg_id
    let st1 : St σ :=
      { st with soap := r.2,
                trace := st.trace ++ [Event.getProxyReq endpoint dlg_id r.1.1 r.1.2] }
    if SOAP_OK ≠ r.1.1 then
      err2davix E st1 "Renewal failed"
    else
      renew_proxy_sign E st1 endpoint ucred dlg_id lifetime r.1.2
  else
    renew_proxy_sign E st endpoint ucred dlg_id lifetime certreq

/-- `renew_proxy`, lines 38-102. -/
def renew_proxy (E : Ext σ) (st : St σ) (endpoint ucred dlg_id : String) (lifetime : Int)
    (force : Bool) : St σ :=
  -- lines 51-60; `certreq` is the empty string until it is assigned
  if force then
    let r := E.soap_call_tns2__renewProxyReq st.soap endpoint dlg_id
    let st1 : St σ :=
      { st with soap := r.2,
                trace := st.trace ++ [Event.renewProxyReq endpoint dlg_id r.1.1 r.1.2] }
    if SOAP_OK ≠ r.1.1 then
      err2davix E st1 "Renewal failed"
    else
      renew_proxy_get E st1 endpoint ucred dlg_id lifetime r.1.2
  else
    renew_proxy_get E st endpoint ucred dlg_id lifetime ""

/-- Lines 124-139 of `delegate_v2`: the query for the delegated credentials and the two
flags `(new_delegation, renew_delegation)` set from its outcome. -/
def delegate_v2_check (E : Ext σ) (st : St σ) (dlg_endpoint dlg_id : String) (lifetime : Int) :
    (Bool × Bool) × St σ :=
  let q := get_delegated_credentials E st dlg_endpoint dlg_id
  match q.1 with
  | none => ((true, false), q.2)
  | some delegated_lifetime =>
    if delegated_lifetime < lifetime then ((false, true), q.2)
    else ((false, false), q.2)

/-- `DavixDelegation::delegate_v2`, lines 105-151.  `st` holds the world and the
caller's error output on entry; the result is the returned string and the state on
return. -/
def DavixDelegation.delegate_v2 (E : Ext σ) (st : St σ) (dlg_endpoint ucred passwd capath : String)
    (lifetime : Int) : String × St σ :=
  let st0 := st.log Event.soap_new
  let dlg_id := "1234"
  -- lines 118-122
  let c := E.soap_ssl_client_context st0.soap ucred passwd ucred capath
  let st1 : St σ :=
    { st0 with soap := c.2,
               trace := st0.trace ++ [Event.soap_ssl_client_context ucred passwd ucred capath c.1] }
  if c.1 ≠ 0 then
    ("", err2davix E st1 "Could not connect to the delegation endpoint: ")
  else
    -- lines 124-139
    let d := delegate_v2_check E st1 dlg_endpoint dlg_id lifetime
    let new_delegation := d.1.1
    let renew_delegation := d.1.2
    -- lines 141-142
    let st2 :=
      if new_delegation || renew_delegation then
        renew_proxy E d.2 dlg_endpoint ucred dlg_id lifetime renew_delegation
      else d.2
    -- lines 144-145
    let st3 := (st2.log Event.soap_free).log Event.soap_done
    -- lines 147-150
    if st3.err.isSome then ("", st3) else (dlg_id, st3)

/-- The state in which an attempt starts: world `s`, error output `err`, empty trace. -/
def St.init (s : σ) (err : Option DavixError) : St σ := ⟨s, err, []⟩

/-! ## Reading a trace -/

/-- The event is a termination-time query. -/
def Event.isQuery : Event → Bool
  | .getTerminationTime _ _ _ _ => true
  | _ => false

/-- The event is a renewal-CSR request. -/
def Event.isRenewReq : Event → Bool
  | .renewProxyReq _ _ _ _ => true
  | _ => false

/-- The event is a fresh-CSR request. -/
def Event.isGetReq : Event → Bool
  | .getProxyReq _ _ _ _ => true
  | _ => false

/-- The event is a call of the signer. -/
def Event.isSign : Event → Bool
  | .GRSTx509MakeProxyCert _ _ _ _ _ _ => true
  | _ => false

/-- The event is an upload. -/
def Event.isPut : Event → Bool
  | .putProxy _ _ _ _ => true
  | _ => false

/-- The event is a write to the error output. -/
def Event.isError : Event → Bool
  | .setupError _ => true
  | _ => false

/-- The event is a session establishment, a CSR request (fresh or renewal), a call of
the signer or an upload, and its status is not the success status.  A termination-time
query is never counted: its failure is not an error. -/
def Event.failed : Event → Bool
  | .soap_ssl_client_context _ _ _ _ ret => ret != 0
  | .renewProxyReq _ _ ret _ => ret != SOAP_OK
  | .getProxyReq _ _ ret _ => ret != SOAP_OK
  | .GRSTx509MakeProxyCert _ _ _ _ ret _ => ret != GRST_RET_OK
  | .putProxy _ _ _ ret => ret != SOAP_OK
  | _ => false

/-- The event is one of the four remote operations or the call of the signer. -/
def Event.isCall (e : Event) : Bool :=
  e.isQuery || e.isRenewReq || e.isGetReq || e.isSign || e.isPut

/-- The remote operations and signer calls of a trace that come after its first write to
the error output. -/
def callsAfterError (tr : List Event) : List Event :=
  (tr.dropWhile (fun e => !e.isError)).filter Event.isCall

/-! ## A scripted endpoint, for concrete runs -/

/-- Fixed answers of the collaborators. -/
structure Script where
  ssl : Int
  query : Int × Int
  now : Int
  renew : Int × String
  get : Int × String
  sign : Int × Option String
  put : Int
  fault : String

/-- What a bounded print of `text` leaves in a C buffer of `len` bytes: the first
`len - 1` characters, the last byte being the terminating NUL.  A character stands for
one `char`. -/
def sprintBounded (text : String) (len : Nat) : String :=
  ⟨text.data.take (len - 1)⟩

/-- The collaborators that answer as the script says, whatever they are asked; the
diagnostic text of every fault is `sc.fault`, printed into the buffer it is given. -/
def Script.ext (sc : Script) : Ext Unit where
  DELEGATION_SCOPE := "Davix::Delegation"
  soap_sprint_fault := fun _ len => sprintBounded sc.fault len
  soap_ssl_client_context := fun _ _ _ _ _ => (sc.ssl, ())
  soap_call_tns2__getTerminationTime := fun _ _ _ => (sc.query, ())
  time := fun _ => sc.now
  soap_call_tns2__renewProxyReq := fun _ _ _ => (sc.renew, ())
  soap_call_tns2__getProxyReq := fun _ _ _ => (sc.get, ())
  GRSTx509MakeProxyCert := fun _ _ _ _ _ => (sc.sign, ())
  soap_call_tns2__putProxy := fun _ _ _ _ => (sc.put, ())

/-- No delegation at the endpoint; every later step succeeds. -/
def scriptFresh : Script :=
  ⟨0, (1, 0), 1000, (0, "CSR-R"), (0, "CSR-A"), (0, some "CERT-A"), 0, "fault"⟩

/-- A delegation with 7200 seconds left. -/
def scriptSufficient : Script :=
  ⟨0, (0, 8200), 1000, (0, "CSR-R"), (0, "CSR-A"), (0, some "CERT-A"), 0, "fault"⟩

/-- A delegation with 100 seconds left; the renewal request is refused. -/
def scriptRenewFails : Script :=
  ⟨0, (0, 1100), 1000, (12, ""), (0, "CSR-A"), (0, some "CERT-A"), 0, "fault"⟩

/-- A delegation with 100 seconds left; the renewal request is answered with an empty
text, every other step succeeds. -/
def scriptRenewEmpty : Script :=
  ⟨0, (0, 1100), 1000, (0, ""), (0, "CSR-A"), (0, some "CERT-A"), 0, "fault"⟩

/-- No delegation at the endpoint; the fresh request is answered with an empty text. -/
def scriptEmptyCsr : Script :=
  ⟨0, (1, 0), 1000, (0, "CSR-R"), (0, ""), (0, some "CERT-A"), 0, "fault"⟩

/-- No delegation at the endpoint; the upload is refused. -/
def scriptPutFails : Script :=
  ⟨0, (1, 0), 1000, (0, "CSR-R"), (0, "CSR-A"), (0, some "CERT-A"), 7, "fault"⟩

/-- The session cannot be established (status 5). -/
def scriptSslFails : Script :=
  ⟨5, (1, 0), 1000, (0, "CSR-R"), (0, "CSR-A"), (0, some "CERT-A"), 0, "fault"⟩

/-- The session cannot be established, and the diagnostic text of the fault is 600
characters long. -/
def scriptLongFault : Script :=
  ⟨5, (1, 0), 1000, (0, "CSR-R"), (0, "CSR-A"), (0, some "CERT-A"), 0,
   ⟨List.replicate 600 'x'⟩⟩

/-! ## The order of the steps -/

/-- The event is a session establishment that returned 0. -/
def Event.isConnected : Event → Bool
  | .soap_ssl_client_context _ _ _ _ ret => ret == 0
  | _ => false

/-- The event is a CSR request, renewal or fresh. -/
def Event.isCsrReq (e : Event) : Bool :=
  e.isRenewReq || e.isGetReq

/-- The event is a CSR request, renewal or fresh, that returned `SOAP_OK` with a
non-empty text. -/
def Event.gaveCsr : Event → Bool
  | .renewProxyReq _ _ ret resp => ret == SOAP_OK && resp != ""
  | .getProxyReq _ _ ret resp => ret == SOAP_OK && resp != ""
  | _ => false

/-- The event is a call of the signer that returned `GRST_RET_OK`. -/
def Event.signedOk : Event → Bool
  | .GRSTx509MakeProxyCert _ _ _ _ ret _ => ret == GRST_RET_OK
  | _ => false

/-- The step of the orchestrator an event belongs to: connect 0, query 1, CSR request
2, sign 3, upload 4; other events belong to no step. -/
def Event.stage : Event → Option Nat
  | .soap_ssl_client_context _ _ _ _ _ => some 0
  | .getTerminationTime _ _ _ _ => some 1
  | .renewProxyReq _ _ _ _ => some 2
  | .getProxyReq _ _ _ _ => some 2
  | .GRSTx509MakeProxyCert _ _ _ _ _ _ => some 3
  | .putProxy _ _ _ _ => some 4
  | _ => none

/-- In the trace, every event that satisfies `q` comes after an event that satisfies
`p`. -/
def OnlyAfter (p q : Event → Bool) (tr : List Event) : Prop :=
  ∀ (pre : List Event) (e : Event) (post : List Event),
    tr = pre ++ e :: post → q e = true → ∃ x ∈ pre, p x = true

/-- A scan of the trace that decides `OnlyAfter`: `seen` tells whether an event that
satisfies `p` was met already. -/
def onlyAfterScan (p q : Event → Bool) : Bool → List Event → Bool
  | _, [] => true
  | seen, e :: tr => (!q e || seen) && onlyAfterScan p q (seen || p e) tr

/-! ## The header option of the command line tools (`src/tools/davix_tool_params.cpp`)

`std::string` values are strings; the character `:` is one byte, so a search for it by
byte and by character agree.  `dav_size_t` is as wide as `std::string::size_type`, so
that `npos` survives the assignment to `pos`. -/

namespace Tool

/-- `scope_params`, line 34. -/
def scope_params : String := "Davix::Tools::Params"

/-- The part of `RequestParams` that `set_header_field` touches: the header fields of the
request, oldest first. -/
structure RequestParams where
  headers : List (String × String)
  deriving DecidableEq, Repr

/-- Modelled from the spec: `RequestParams::addHeader` is defined outside the sources at
hand; as the help text of `--header` says ("Add a header field to the request"), it adds the
field with this name and this value to the header fields of the request. -/
def RequestParams.addHeader (p : RequestParams) (name value : String) : RequestParams :=
  ⟨p.headers ++ [(name, value)]⟩

/-- The part of `OptParams` that `set_header_field` touches. -/
structure OptParams where
  params : RequestParams
  deriving DecidableEq, Repr

/-- Position of the first `c` in a list of characters, if there is one. -/
def findIdx (c : Char) : List Char → Option Nat
  | [] => none
  | x :: xs => if x = c then some 0 else (findIdx c xs).map (· + 1)

/-- `std::string::find(c)`: the position of the first `c`; `none` stands for `npos`. -/
def find (s : String) (c : Char) : Option Nat :=
  findIdx c s.data

/-- `std::string::substr(pos, len)`, with `len = none` for the default `npos`: the
characters from `pos` on, at most `len` of them; `none` stands for the `std::out_of_range`
thrown when `pos` is beyond the size of the string. -/
def substr (s : String) (pos : Nat) (len : Option Nat) : Option String :=
  if s.data.length < pos then none
  else
    match len with
    | none => some ⟨s.data.drop pos⟩
    | some n => some ⟨(s.data.drop pos).take n⟩

/-- `set_header_field`, lines 128-136.  The state holds the option record `p` as its
world and the caller's error output; the result is `none` when an exception escapes. -/
def set_header_field (arg : String) (st : St OptParams) : Option (Int × St OptParams) :=
  match find arg ':' with
  | none =>
    some (-1, DavixError.setupError st scope_params StatusCode.InvalidArgument
      " Invalid header field argument")
  | some pos =>
    match substr arg 0 (some pos), substr arg (pos + 1) none with
    | some name, some value =>
      some (0, { st with soap := { st.soap with params := st.soap.params.addHeader name value } })
    | _, _ => none

end Tool

/-! ## The paths through the code -/

/-- The error that `err2davix` writes in world `s` for the step named by `pre`. -/
def faultError (E : Ext σ) (s : σ) (pre : String) : DavixError :=
  ⟨E.DELEGATION_SCOPE, StatusCode.DelegationError, pre ++ E.soap_sprint_fault s 512⟩

/-- The error that the delegation code writes itself, with a fixed message. -/
def localError (E : Ext σ) (msg : String) : DavixError :=
  ⟨E.DELEGATION_SCOPE, StatusCode.DelegationError, msg⟩

/-- What `renew_proxy_sign` can add to the trace (`evs`) and leave in the error output
(`err1`), entered with request text `certreq` and error output `err0`. -/
def SignPath (E : Ext σ) (endpoint ucred dlg_id : String) (lifetime : Int) (certreq : String)
    (err0 : Option DavixError) (evs : List Event) (err1 : Option DavixError) : Prop :=
  (certreq = "" ∧ evs = [Event.setupError (localError E "Could not get a request")] ∧
      err1 = some (localError E "Could not get a request")) ∨
  (certreq ≠ "" ∧ ∃ ret certtxt, ret ≠ GRST_RET_OK ∧
      evs = [Event.GRSTx509MakeProxyCert certreq ucred ucred lifetime ret certtxt,
             Event.setupError (localError E "GRSTx509MakeProxyCert failed")] ∧
      err1 = some (localError E "GRSTx509MakeProxyCert failed")) ∨
  (certreq ≠ "" ∧
      evs = [Event.GRSTx509MakeProxyCert certreq ucred ucred lifetime GRST_RET_OK none,
             Event.setupError (localError E "Could not duplicate")] ∧
      err1 = some (localError E "Could not duplicate")) ∨
  (certreq ≠ "" ∧ ∃ certtxt ret s, ret ≠ SOAP_OK ∧
      evs = [Event.GRSTx509MakeProxyCert certreq ucred ucred lifetime GRST_RET_OK (some certtxt),
             Event.putProxy endpoint dlg_id certtxt ret,
             Event.setupError (faultError E s "Renewal failed")] ∧
      err1 = some (faultError E s "Renewal failed")) ∨
  (certreq ≠ "" ∧ ∃ certtxt,
      evs = [Event.GRSTx509MakeProxyCert certreq ucred ucred lifetime GRST_RET_OK (some certtxt),
             Event.putProxy endpoint dlg_id certtxt SOAP_OK] ∧
      err1 = err0)

/-- What `renew_proxy_get` can add to the trace and leave in the error output, entered
with `certreq` and error output `err0`. -/
def GetPath (E : Ext σ) (endpoint ucred dlg_id : String) (lifetime : Int) (certreq : String)
    (err0 : Option DavixError) (evs : List Event) (err1 : Option DavixError) : Prop :=
  (certreq ≠ "" ∧ SignPath E endpoint ucred dlg_id lifetime certreq err0 evs err1) ∨
  (certreq = "" ∧ ∃ ret resp s, ret ≠ SOAP_OK ∧
      evs = [Event.getProxyReq endpoint dlg_id ret resp,
             Event.setupError (faultError E s "Renewal failed")] ∧
      err1 = some (faultError E s "Renewal failed")) ∨
  (certreq = "" ∧ ∃ resp evs1,
      evs = Event.getProxyReq endpoint dlg_id SOAP_OK resp :: evs1 ∧
      SignPath E endpoint ucred dlg_id lifetime resp err0 evs1 err1)

/-- What `renew_proxy` can add to the trace and leave in the error output. -/
def RenewPath (E : Ext σ) (endpoint ucred dlg_id : String) (lifetime : Int) (force : Bool)
    (err0 : Option DavixError) (evs : List Event) (err1 : Option DavixError) : Prop :=
  (force = false ∧ GetPath E endpoint ucred dlg_id lifetime "" err0 evs err1) ∨
  (force = true ∧ ∃ ret resp s, ret ≠ SOAP_OK ∧
      evs = [Event.renewProxyReq endpoint dlg_id ret resp,
             Event.setupError (faultError E s "Renewal failed")] ∧
      err1 = some (faultError E s "Renewal failed")) ∨
  (force = true ∧ ∃ resp evs1,
      evs = Event.renewProxyReq endpoint dlg_id SOAP_OK resp :: evs1 ∧
      GetPath E endpoint ucred dlg_id lifetime resp err0 evs1 err1)

/-- What lines 124-142 of `delegate_v2` can add to the trace and leave in the error
output: the query, and the renewal when one of the two flags is set. -/
def CheckPath (E : Ext σ) (endpoint ucred dlg_id : String) (lifetime : Int)
    (err0 : Option DavixError) (evs : List Event) (err1 : Option DavixError) : Prop :=
  (∃ ret resp evs1, ret ≠ SOAP_OK ∧
      evs = Event.getTerminationTime endpoint dlg_id ret resp :: evs1 ∧
      RenewPath E endpoint ucred dlg_id lifetime false err0 evs1 err1) ∨
  (∃ resp now evs1, resp - now < lifetime ∧
      evs = Event.getTerminationTime endpoint dlg_id SOAP_OK resp :: Event.time now :: evs1 ∧
      RenewPath E endpoint ucred dlg_id lifetime true err0 evs1 err1) ∨
  (∃ resp now, lifetime ≤ resp - now ∧
      evs = [Event.getTerminationTime endpoint dlg_id SOAP_OK resp, Event.time now] ∧
      err1 = err0)

/-- The runs of `delegate_v2`: returned string `res`, trace `tr` and error output `err1`
of an attempt entered with error output `err0`. -/
def DelegatePath (E : Ext σ) (endpoint ucred passwd capath : String) (lifetime : Int)
    (err0 : Option DavixError) (res : String) (tr : List Event) (err1 : Option DavixError) :
    Prop :=
  (∃ ret s, ret ≠ 0 ∧
      tr = [Event.soap_new, Event.soap_ssl_client_context ucred passwd ucred capath ret,
            Event.setupError (faultError E s "Could not connect to the delegation endpoint: ")] ∧
      err1 = some (faultError E s "Could not connect to the delegation endpoint: ") ∧
      res = "") ∨
  (∃ evs,
      tr = Event.soap_new :: Event.soap_ssl_client_context ucred passwd ucred capath 0 ::
            (evs ++ [Event.soap_free, Event.soap_done]) ∧
      CheckPath E endpoint ucred "1234" lifetime err0 evs err1 ∧
      res = if err1.isSome then "" else "1234")

/-- The attempt against a scripted endpoint, started with the error output unset:
endpoint `ep`, credential `ucred`, password `pw`, CA path `ca`, 3600 seconds asked. -/
def runOf (sc : Script) : String × St Unit :=
  DavixDelegation.delegate_v2 sc.ext (St.init () none) "ep" "ucred" "pw" "ca" 3600

/-- An error left in the error output by the caller before the attempt. -/
def callerError : DavixError :=
  ⟨"caller", StatusCode.InvalidArgument, "old"⟩

/-- The attempt against a scripted endpoint, entered with the error output `err0`; the
arguments are those of `runOf`. -/
def runWith (sc : Script) (err0 : Option DavixError) : String × St Unit :=
  DavixDelegation.delegate_v2 sc.ext (St.init () err0) "ep" "ucred" "pw" "ca" 3600

/-! ## Path lemmas -/

open DavixDelegation

/-- Every run of `renew_proxy_sign` follows one of the paths of `SignPath`. -/
theorem renew_proxy_sign_path (E : Ext σ) (st : St σ) (endpoint ucred dlg_id : String)
    (lifetime : Int) (certreq : String) :
    ∃ evs, (renew_proxy_sign E st endpoint ucred dlg_id lifetime certreq).trace = st.trace ++ evs ∧
      SignPath E endpoint ucred dlg_id lifetime certreq st.err evs
        (renew_proxy_sign E st endpoint ucred dlg_id lifetime certreq).err := by
  unfold renew_proxy_sign SignPath
  by_cases hC : certreq = ""
  · subst hC
    have hE : "".isEmpty = true := by decide
    simp [hE, DavixError.setupError, localError]
  · have hC2 : certreq.isEmpty = false := by
      rw [Bool.eq_false_iff]; intro h; exact hC ((String.isEmpty_iff _).1 h)
    simp only [hC2, Bool.not_false, if_true]
    generalize E.GRSTx509MakeProxyCert st.soap certreq ucred ucred lifetime = g
    obtain ⟨⟨ret, certtxt⟩, s1⟩ := g
    by_cases hret : ret = GRST_RET_OK
    · subst hret
      cases certtxt with
      | none => simp [soap_strdup, DavixError.setupError, localError, hC]
      | some T =>
        simp only [soap_strdup]
        generalize E.soap_call_tns2__putProxy s1 endpoint dlg_id T = p
        obtain ⟨pret, s2⟩ := p
        by_cases hp : SOAP_OK = pret
        · subst hp
          simp [hC]
        · simp [hC, hp, err2davix, DavixError.setupError, faultError, localError]
          exact ⟨T, pret, Ne.symm hp, s2, by simp⟩
    · simp [hC, hret, DavixError.setupError, localError]

/-- Every run of `renew_proxy_get` follows one of the paths of `GetPath`. -/
theorem renew_proxy_get_path (E : Ext σ) (st : St σ) (endpoint ucred dlg_id : String)
    (lifetime : Int) (certreq : String) :
    ∃ evs, (renew_proxy_get E st endpoint ucred dlg_id lifetime certreq).trace = st.trace ++ evs ∧
      GetPath E endpoint ucred dlg_id lifetime certreq st.err evs
        (renew_proxy_get E st endpoint ucred dlg_id lifetime certreq).err := by
  unfold renew_proxy_get GetPath
  by_cases hC : certreq = ""
  · subst hC
    have hE : "".isEmpty = true := by decide
    simp only [hE, if_true]
    generalize E.soap_call_tns2__getProxyReq st.soap endpoint dlg_id = r
    obtain ⟨⟨ret, resp⟩, s1⟩ := r
    by_cases hret : SOAP_OK = ret
    · subst hret
      obtain ⟨evs, h1, h2⟩ := renew_proxy_sign_path E
        { st with soap := s1,
                  trace := st.trace ++ [Event.getProxyReq endpoint dlg_id SOAP_OK resp] }
        endpoint ucred dlg_id lifetime resp
      refine ⟨Event.getProxyReq endpoint dlg_id SOAP_OK resp :: evs, ?_, ?_⟩
      · simpa using h1
      · right; right
        exact ⟨trivial, resp, evs, rfl, by simpa using h2⟩
    · refine ⟨[Event.getProxyReq endpoint dlg_id ret resp,
        Event.setupError (faultError E s1 "Renewal failed")], ?_, ?_⟩
      · simp [hret, err2davix, DavixError.setupError, faultError]
      · right; left
        refine ⟨trivial, ret, resp, s1, Ne.symm hret, rfl, ?_⟩
        simp [hret, err2davix, DavixError.setupError, faultError]
  · have hC2 : certreq.isEmpty = false := by
      rw [Bool.eq_false_iff]; intro h; exact hC ((String.isEmpty_iff _).1 h)
    simp only [hC2, Bool.false_eq_true, if_false]
    obtain ⟨evs, h1, h2⟩ := renew_proxy_sign_path E st endpoint ucred dlg_id lifetime certreq
    exact ⟨evs, h1, Or.inl ⟨hC, h2⟩⟩

/-- Every run of `renew_proxy` follows one of the paths of `RenewPath`. -/
theorem renew_proxy_path (E : Ext σ) (st : St σ) (endpoint ucred dlg_id : String)
    (lifetime : Int) (force : Bool) :
    ∃ evs, (renew_proxy E st endpoint ucred dlg_id lifetime force).trace = st.trace ++ evs ∧
      RenewPath E endpoint ucred dlg_id lifetime force st.err evs
        (renew_proxy E st endpoint ucred dlg_id lifetime force).err := by
  unfold renew_proxy RenewPath
  cases force with
  | false =>
    simp only [Bool.false_eq_true, if_false]
    obtain ⟨evs, h1, h2⟩ := renew_proxy_get_path E st endpoint ucred dlg_id lifetime ""
    exact ⟨evs, h1, Or.inl ⟨trivial, h2⟩⟩
  | true =>
    simp only [if_true]
    generalize E.soap_call_tns2__renewProxyReq st.soap endpoint dlg_id = r
    obtain ⟨⟨ret, resp⟩, s1⟩ := r
    by_cases hret : SOAP_OK = ret
    · subst hret
      obtain ⟨evs, h1, h2⟩ := renew_proxy_get_path E
        { st with soap := s1,
                  trace := st.trace ++ [Event.renewProxyReq endpoint dlg_id SOAP_OK resp] }
        endpoint ucred dlg_id lifetime resp
      refine ⟨Event.renewProxyReq endpoint dlg_id SOAP_OK resp :: evs, ?_, ?_⟩
      · simpa using h1
      · right; right
        exact ⟨trivial, resp, evs, rfl, by simpa using h2⟩
    · refine ⟨[Event.renewProxyReq endpoint dlg_id ret resp,
        Event.setupError (faultError E s1 "Renewal failed")], ?_, ?_⟩
      · simp [hret, err2davix, DavixError.setupError, faultError]
      · right; left
        refine ⟨trivial, ret, resp, s1, Ne.symm hret, rfl, ?_⟩
        simp [hret, err2davix, DavixError.setupError, faultError]

/-- Every attempt of `delegate_v2` that starts with an empty trace follows one of the
paths of `DelegatePath`. -/
theorem delegate_v2_path (E : Ext σ) (s : σ) (err0 : Option DavixError)
    (endpoint ucred passwd capath : String) (lifetime : Int) :
    DelegatePath E endpoint ucred passwd capath lifetime err0
      (delegate_v2 E (St.init s err0) endpoint ucred passwd capath lifetime).1
      (delegate_v2 E (St.init s err0) endpoint ucred passwd capath lifetime).2.trace
      (delegate_v2 E (St.init s err0) endpoint ucred passwd capath lifetime).2.err := by
  unfold delegate_v2 DelegatePath
  simp only [St.init, St.log, List.nil_append, List.singleton_append]
  generalize E.soap_ssl_client_context s ucred passwd ucred capath = c
  obtain ⟨ret, s1⟩ := c
  by_cases hret : ret = 0
  · subst hret
    right
    simp only [ne_eq, not_true_eq_false, if_false]
    unfold delegate_v2_check get_delegated_credentials
    simp only [St.log, List.cons_append, List.nil_append]
    generalize E.soap_call_tns2__getTerminationTime s1 endpoint "1234" = q
    obtain ⟨⟨qret, resp⟩, s2⟩ := q
    by_cases hq : SOAP_OK = qret
    · subst hq
      simp only [ne_eq, not_true_eq_false, if_false]
      by_cases hl : resp - E.time s2 < lifetime
      · simp only [hl, if_true, Bool.or_true]
        obtain ⟨evs, h1, h2⟩ := renew_proxy_path E
          { soap := s2, err := err0,
            trace := [Event.soap_new, Event.soap_ssl_client_context ucred passwd ucred capath 0,
              Event.getTerminationTime endpoint "1234" SOAP_OK resp, Event.time (E.time s2)] }
          endpoint ucred "1234" lifetime true
        refine ⟨Event.getTerminationTime endpoint "1234" SOAP_OK resp :: Event.time (E.time s2) ::
          evs, ?_, ?_, ?_⟩
        · split_ifs <;> simp [h1]
        · right; left
          refine ⟨resp, E.time s2, evs, hl, rfl, ?_⟩
          split_ifs <;> simpa using h2
        · split_ifs <;> simp_all
      · simp only [hl, if_false, Bool.or_false, Bool.false_eq_true]
        refine ⟨[Event.getTerminationTime endpoint "1234" SOAP_OK resp, Event.time (E.time s2)],
          ?_, ?_, ?_⟩
        · split_ifs <;> simp
        · right; right
          refine ⟨resp, E.time s2, not_lt.1 hl, rfl, ?_⟩
          split_ifs <;> simp
        · split_ifs <;> simp_all
    · simp only [ne_eq, hq, not_false_eq_true, if_true, Bool.true_or]
      obtain ⟨evs, h1, h2⟩ := renew_proxy_path E
        { soap := s2, err := err0,
          trace := [Event.soap_new, Event.soap_ssl_client_context ucred passwd ucred capath 0,
            Event.getTerminationTime endpoint "1234" qret resp] }
        endpoint ucred "1234" lifetime false
      refine ⟨Event.getTerminationTime endpoint "1234" qret resp :: evs, ?_, ?_, ?_⟩
      · split_ifs <;> simp [h1]
      · left
        refine ⟨qret, resp, evs, Ne.symm hq, rfl, ?_⟩
        split_ifs <;> simpa using h2
      · split_ifs <;> simp_all
  · left
    simp only [ne_eq, hret, not_false_eq_true, if_true]
    exact ⟨ret, s1, hret, by simp [err2davix, DavixError.setupError, faultError]⟩

/-! ## The claims -/

/-- Claim C1: the renewal decision of `delegate_v2` (lines 124-139).  With the status
of the termination-time query and `R` the reported termination time minus the clock
value, the flags `(new_delegation, renew_delegation)` are `(true, false)`
(NewDelegation) iff the query fails, `(false, true)` (Renewal) iff it succeeds and
`R < lifetime`, `(false, false)` (NoAction) iff it succeeds and `lifetime ≤ R`; they
are never both set, so exactly one of the three is selected, and `R = lifetime` gives
NoAction. -/
theorem delegate_v2_decision (E : Ext σ) (st : St σ) (dlg_endpoint dlg_id : String)
    (lifetime : Int) :
    let q := E.soap_call_tns2__getTerminationTime st.soap dlg_endpoint dlg_id
    let R := q.1.2 - E.time q.2
    let d := (delegate_v2_check E st dlg_endpoint dlg_id lifetime).1
    (d = (true, false) ↔ q.1.1 ≠ SOAP_OK) ∧
    (d = (false, true) ↔ q.1.1 = SOAP_OK ∧ R < lifetime) ∧
    (d = (false, false) ↔ q.1.1 = SOAP_OK ∧ lifetime ≤ R) ∧
    (q.1.1 = SOAP_OK ∧ R = lifetime → d = (false, false)) ∧
    d ≠ (true, true) := by
  intro q R d
  simp only [d, R, q, delegate_v2_check, get_delegated_credentials, St.log]
  generalize E.soap_call_tns2__getTerminationTime st.soap dlg_endpoint dlg_id = g
  obtain ⟨⟨ret, resp⟩, s1⟩ := g
  by_cases h : SOAP_OK = ret
  · subst h
    by_cases h2 : resp - E.time s1 < lifetime
    · simp [h2]
      omega
    · simp [h2]
      omega
  · simp [h, Ne.symm h]

/-- Claim C2, as stated, fails: with a delegation that has 100 seconds left and a
renewal request answered `SOAP_OK` with an empty text, the attempt succeeds (identifier
returned, error unset) and its trace holds a renewal-CSR request and a fresh-CSR
request. -/
theorem delegate_v2_both_requests_in_successful_attempt :
    (delegate_v2 scriptRenewEmpty.ext (St.init () none) "ep" "ucred" "pw" "ca" 3600).1 = "1234" ∧
    (delegate_v2 scriptRenewEmpty.ext (St.init () none) "ep" "ucred" "pw" "ca" 3600).2.err = none ∧
    Event.renewProxyReq "ep" "1234" SOAP_OK "" ∈
      (delegate_v2 scriptRenewEmpty.ext (St.init () none) "ep" "ucred" "pw" "ca" 3600).2.trace ∧
    Event.getProxyReq "ep" "1234" SOAP_OK "CSR-A" ∈
      (delegate_v2 scriptRenewEmpty.ext (St.init () none) "ep" "ucred" "pw" "ca" 3600).2.trace := by
  decide

/-- Claim C2, amended: in every attempt of `delegate_v2`, successful or not, whose
trace holds both a renewal-CSR request and a fresh-CSR request, the renewal-CSR request
returned `SOAP_OK` with an empty text.  So the fresh-CSR request is issued only in
attempts where the renewal-CSR request was never issued or succeeded with an empty
text. -/
theorem delegate_v2_both_requests_only_after_empty_renewal (E : Ext σ) (s : σ)
    (err0 : Option DavixError) (endpoint ucred passwd capath : String) (lifetime : Int)
    (ep1 id1 : String) (ret1 : Int) (resp1 : String)
    (ep2 id2 : String) (ret2 : Int) (resp2 : String)
    (h1 : Event.renewProxyReq ep1 id1 ret1 resp1 ∈
      (delegate_v2 E (St.init s err0) endpoint ucred passwd capath lifetime).2.trace)
    (h2 : Event.getProxyReq ep2 id2 ret2 resp2 ∈
      (delegate_v2 E (St.init s err0) endpoint ucred passwd capath lifetime).2.trace) :
    ret1 = SOAP_OK ∧ resp1 = "" := by
  have hp := delegate_v2_path E s err0 endpoint ucred passwd capath lifetime
  generalize (delegate_v2 E (St.init s err0) endpoint ucred passwd capath lifetime).1 = res at hp
  generalize (delegate_v2 E (St.init s err0) endpoint ucred passwd capath lifetime).2.trace = tr
    at hp h1 h2
  generalize (delegate_v2 E (St.init s err0) endpoint ucred passwd capath lifetime).2.err = err1
    at hp
  simp only [DelegatePath, CheckPath, RenewPath, GetPath, SignPath] at hp
  casesm* _ ∨ _, _ ∧ _, ∃ _, _ <;> subst_vars <;> simp_all

/-- Witness of the amended claim C2, on the run with an empty renewal answer. -/
theorem delegate_v2_both_requests_only_after_empty_renewal_witness :
    Event.renewProxyReq "ep" "1234" 0 "" ∈ (runOf scriptRenewEmpty).2.trace ∧
    Event.getProxyReq "ep" "1234" 0 "CSR-A" ∈ (runOf scriptRenewEmpty).2.trace ∧
    (0 : Int) = SOAP_OK ∧ "" = "" :=
  ⟨by decide, by decide,
   delegate_v2_both_requests_only_after_empty_renewal scriptRenewEmpty.ext () none
     "ep" "ucred" "pw" "ca" 3600 "ep" "1234" 0 "" "ep" "1234" 0 "CSR-A" (by decide) (by decide)⟩

/-- Claim C3: all or nothing.  An attempt of `delegate_v2` started with the error output
unset returns either a non-empty identifier with the error output still unset, or the
empty string with the error output set, and never both or neither. -/
theorem delegate_v2_all_or_nothing (E : Ext σ) (s : σ)
    (endpoint ucred passwd capath : String) (lifetime : Int) :
    let r := delegate_v2 E (St.init s none) endpoint ucred passwd capath lifetime
    Xor' (r.1 ≠ "" ∧ r.2.err = none) (r.1 = "" ∧ r.2.err ≠ none) := by
  intro r
  have hp := delegate_v2_path E s none endpoint ucred passwd capath lifetime
  simp only [r]
  generalize (delegate_v2 E (St.init s none) endpoint ucred passwd capath lifetime).1 = res at hp ⊢
  generalize (delegate_v2 E (St.init s none) endpoint ucred passwd capath lifetime).2.trace = tr
    at hp ⊢
  generalize (delegate_v2 E (St.init s none) endpoint ucred passwd capath lifetime).2.err = err1
    at hp ⊢
  simp only [DelegatePath, CheckPath, RenewPath, GetPath, SignPath] at hp
  casesm* _ ∨ _, _ ∧ _, ∃ _, _ <;> subst_vars <;> simp_all [Xor']

/-- Claim C4: in an attempt of `delegate_v2` started with the error output unset, if
session establishment, the CSR request that is issued (fresh or renewal), the signer or
the upload returns a status other than success, the returned identifier is empty and the
error output holds an error of scope `DELEGATION_SCOPE` and status code
`StatusCode::DelegationError`. -/
theorem delegate_v2_failure_is_delegation_error (E : Ext σ) (s : σ)
    (endpoint ucred passwd capath : String) (lifetime : Int)
    (h : ∃ e ∈ (delegate_v2 E (St.init s none) endpoint ucred passwd capath lifetime).2.trace,
      e.failed = true) :
    (delegate_v2 E (St.init s none) endpoint ucred passwd capath lifetime).1 = "" ∧
    ∃ e, (delegate_v2 E (St.init s none) endpoint ucred passwd capath lifetime).2.err = some e ∧
      e.scope = E.DELEGATION_SCOPE ∧ e.code = StatusCode.DelegationError := by
  have hp := delegate_v2_path E s none endpoint ucred passwd capath lifetime
  simp only [← List.any_eq_true] at h
  generalize (delegate_v2 E (St.init s none) endpoint ucred passwd capath lifetime).1 = res
    at hp h ⊢
  generalize (delegate_v2 E (St.init s none) endpoint ucred passwd capath lifetime).2.trace = tr
    at hp h ⊢
  generalize (delegate_v2 E (St.init s none) endpoint ucred passwd capath lifetime).2.err = err1
    at hp h ⊢
  simp only [DelegatePath, CheckPath, RenewPath, GetPath, SignPath] at hp
  casesm* _ ∨ _, _ ∧ _, ∃ _, _ <;> subst_vars <;>
    simp_all [Event.failed, faultError, localError]

/-- Witness of claim C4, on the run whose upload is refused. -/
theorem delegate_v2_failure_is_delegation_error_witness :
    (∃ e ∈ (runOf scriptPutFails).2.trace, e.failed = true) ∧
    (runOf scriptPutFails).1 = "" ∧
    ∃ e, (runOf scriptPutFails).2.err = some e ∧
      e.scope = scriptPutFails.ext.DELEGATION_SCOPE ∧ e.code = StatusCode.DelegationError :=
  ⟨by decide,
   delegate_v2_failure_is_delegation_error scriptPutFails.ext () "ep" "ucred" "pw" "ca" 3600
     (by decide)⟩

/-- Claim C5: the sufficient case.  In an attempt of `delegate_v2` started with the
error output unset, in which the session is established and the termination-time query
succeeds with `lifetime ≤ R` (`R` the reported termination time minus the clock value),
no renewal-CSR request, fresh-CSR request, signer call or upload is made, the error
output stays unset, and the returned identifier is the one passed to the query. -/
theorem delegate_v2_sufficient (E : Ext σ) (s : σ)
    (endpoint ucred passwd capath : String) (lifetime : Int)
    (k p c a ep1 id1 : String) (resp now : Int)
    (hs : Event.soap_ssl_client_context k p c a 0 ∈
      (delegate_v2 E (St.init s none) endpoint ucred passwd capath lifetime).2.trace)
    (hq : Event.getTerminationTime ep1 id1 SOAP_OK resp ∈
      (delegate_v2 E (St.init s none) endpoint ucred passwd capath lifetime).2.trace)
    (hnow : Event.time now ∈
      (delegate_v2 E (St.init s none) endpoint ucred passwd capath lifetime).2.trace)
    (hR : lifetime ≤ resp - now) :
    (∀ e ∈ (delegate_v2 E (St.init s none) endpoint ucred passwd capath lifetime).2.trace,
      e.isRenewReq = false ∧ e.isGetReq = false ∧ e.isSign = false ∧ e.isPut = false) ∧
    (delegate_v2 E (St.init s none) endpoint ucred passwd capath lifetime).2.err = none ∧
    (delegate_v2 E (St.init s none) endpoint ucred passwd capath lifetime).1 = id1 := by
  have hp := delegate_v2_path E s none endpoint ucred passwd capath lifetime
  generalize (delegate_v2 E (St.init s none) endpoint ucred passwd capath lifetime).1 = res
    at hp ⊢
  generalize (delegate_v2 E (St.init s none) endpoint ucred passwd capath lifetime).2.trace = tr
    at hp hs hq hnow ⊢
  generalize (delegate_v2 E (St.init s none) endpoint ucred passwd capath lifetime).2.err = err1
    at hp ⊢
  simp only [DelegatePath, CheckPath, RenewPath, GetPath, SignPath, ne_eq, not_true_eq_false,
    false_and, and_false, or_false, false_or, true_and, Bool.false_eq_true, Bool.true_eq_false,
    exists_false, exists_const] at hp
  casesm* _ ∨ _, _ ∧ _, ∃ _, _ <;> subst_vars <;>
    simp only [List.mem_cons, List.mem_append, List.mem_singleton, List.cons_append,
      List.nil_append, List.not_mem_nil, or_false, false_or, Event.getTerminationTime.injEq,
      Event.time.injEq, Event.soap_ssl_client_context.injEq, reduceCtorEq] at hs hq hnow
  all_goals obtain ⟨-, rfl, -, rfl⟩ := hq
  all_goals obtain rfl := hnow
  all_goals first
    | (exfalso; omega)
    | simp [Event.isRenewReq, Event.isGetReq, Event.isSign, Event.isPut]

/-- Witness of claim C5: 7200 seconds are left and 3600 are asked. -/
theorem delegate_v2_sufficient_witness :
    Event.getTerminationTime "ep" "1234" SOAP_OK 8200 ∈ (runOf scriptSufficient).2.trace ∧
    Event.time 1000 ∈ (runOf scriptSufficient).2.trace ∧
    (3600 : Int) ≤ 8200 - 1000 ∧
    (∀ e ∈ (runOf scriptSufficient).2.trace,
      e.isRenewReq = false ∧ e.isGetReq = false ∧ e.isSign = false ∧ e.isPut = false) ∧
    (runOf scriptSufficient).2.err = none ∧
    (runOf scriptSufficient).1 = "1234" :=
  ⟨by decide, by decide, by decide,
   delegate_v2_sufficient scriptSufficient.ext () "ep" "ucred" "pw" "ca" 3600
     "ucred" "pw" "ucred" "ca" "ep" "1234" 8200 1000 (by decide) (by decide) (by decide)
     (by decide)⟩

/-- Claim C6: a failed renewal is terminal.  In every attempt of `delegate_v2` in which
the termination-time query succeeds with `R < lifetime`, a renewal-CSR request is issued;
and if that request returns a status other than `SOAP_OK`, no fresh-CSR request, signer
call or upload is made, the error output is set and the returned identifier is empty. -/
theorem delegate_v2_renewal_failure_is_terminal (E : Ext σ) (s : σ) (err0 : Option DavixError)
    (endpoint ucred passwd capath : String) (lifetime : Int)
    (ep1 id1 : String) (resp now : Int)
    (hq : Event.getTerminationTime ep1 id1 SOAP_OK resp ∈
      (delegate_v2 E (St.init s err0) endpoint ucred passwd capath lifetime).2.trace)
    (hnow : Event.time now ∈
      (delegate_v2 E (St.init s err0) endpoint ucred passwd capath lifetime).2.trace)
    (hR : resp - now < lifetime) :
    (∃ e ∈ (delegate_v2 E (St.init s err0) endpoint ucred passwd capath lifetime).2.trace,
      e.isRenewReq = true) ∧
    (∀ ep2 id2 ret resp2, Event.renewProxyReq ep2 id2 ret resp2 ∈
        (delegate_v2 E (St.init s err0) endpoint ucred passwd capath lifetime).2.trace →
      ret ≠ SOAP_OK →
      (∀ e ∈ (delegate_v2 E (St.init s err0) endpoint ucred passwd capath lifetime).2.trace,
        e.isGetReq = false ∧ e.isSign = false ∧ e.isPut = false) ∧
      (∃ e, (delegate_v2 E (St.init s err0) endpoint ucred passwd capath lifetime).2.err = some e) ∧
      (delegate_v2 E (St.init s err0) endpoint ucred passwd capath lifetime).1 = "") := by
  have hp := delegate_v2_path E s err0 endpoint ucred passwd capath lifetime
  generalize (delegate_v2 E (St.init s err0) endpoint ucred passwd capath lifetime).1 = res
    at hp ⊢
  generalize (delegate_v2 E (St.init s err0) endpoint ucred passwd capath lifetime).2.trace = tr
    at hp hq hnow ⊢
  generalize (delegate_v2 E (St.init s err0) endpoint ucred passwd capath lifetime).2.err = err1
    at hp ⊢
  simp only [DelegatePath, CheckPath, RenewPath, GetPath, SignPath, ne_eq, not_true_eq_false,
    false_and, and_false, or_false, false_or, true_and, Bool.false_eq_true, Bool.true_eq_false,
    exists_false, exists_const] at hp
  casesm* _ ∨ _, _ ∧ _, ∃ _, _ <;> subst_vars <;>
    simp only [List.mem_cons, List.mem_append, List.mem_singleton, List.cons_append,
      List.nil_append, List.not_mem_nil, or_false, false_or, Event.getTerminationTime.injEq,
      Event.time.injEq, Event.soap_ssl_client_context.injEq, Event.renewProxyReq.injEq,
      Event.getProxyReq.injEq, Event.GRSTx509MakeProxyCert.injEq, Event.putProxy.injEq,
      reduceCtorEq] at hq hnow
  all_goals obtain ⟨-, -, -, rfl⟩ := hq
  all_goals obtain rfl := hnow
  all_goals first
    | (exfalso; omega)
    | (refine ⟨by simp [Event.isRenewReq], ?_⟩
       intro ep2 id2 ret resp2 hm hret
       simp only [List.mem_cons, List.mem_append, List.mem_singleton, List.cons_append,
         List.nil_append, List.not_mem_nil, or_false, false_or, Event.renewProxyReq.injEq,
         reduceCtorEq] at hm
       first
         | (obtain ⟨-, -, rfl, -⟩ := hm; exact absurd rfl hret)
         | simp [Event.isGetReq, Event.isSign, Event.isPut])

/-- Witness of claim C6: 100 seconds are left, 3600 are asked, and the renewal request
is refused with status 12. -/
theorem delegate_v2_renewal_failure_is_terminal_witness :
    Event.getTerminationTime "ep" "1234" SOAP_OK 1100 ∈ (runOf scriptRenewFails).2.trace ∧
    Event.time 1000 ∈ (runOf scriptRenewFails).2.trace ∧
    (1100 : Int) - 1000 < 3600 ∧
    Event.renewProxyReq "ep" "1234" 12 "" ∈ (runOf scriptRenewFails).2.trace ∧
    (∀ e ∈ (runOf scriptRenewFails).2.trace,
      e.isGetReq = false ∧ e.isSign = false ∧ e.isPut = false) ∧
    (∃ e, (runOf scriptRenewFails).2.err = some e) ∧
    (runOf scriptRenewFails).1 = "" :=
  ⟨by decide, by decide, by decide, by decide,
   (delegate_v2_renewal_failure_is_terminal scriptRenewFails.ext () none
     "ep" "ucred" "pw" "ca" 3600 "ep" "1234" 1100 1000 (by decide) (by decide) (by decide)).2
     "ep" "1234" 12 "" (by decide) (by decide)⟩

/-- Claim C7, as stated, fails: entered with an error in the error output, the attempt
whose termination-time query is refused, whose fresh-CSR request returns the non-empty
text `CSR-A` and whose signer call and upload succeed returns the empty string, with the
caller's error still in the error output. -/
theorem delegate_v2_query_failure_entered_with_error :
    Event.soap_ssl_client_context "ucred" "pw" "ucred" "ca" 0 ∈
      (runWith scriptFresh (some callerError)).2.trace ∧
    Event.getTerminationTime "ep" "1234" 1 0 ∈ (runWith scriptFresh (some callerError)).2.trace ∧
    (1 : Int) ≠ SOAP_OK ∧
    Event.getProxyReq "ep" "1234" SOAP_OK "CSR-A" ∈
      (runWith scriptFresh (some callerError)).2.trace ∧
    "CSR-A" ≠ "" ∧
    Event.GRSTx509MakeProxyCert "CSR-A" "ucred" "ucred" 3600 GRST_RET_OK (some "CERT-A") ∈
      (runWith scriptFresh (some callerError)).2.trace ∧
    Event.putProxy "ep" "1234" "CERT-A" SOAP_OK ∈
      (runWith scriptFresh (some callerError)).2.trace ∧
    (runWith scriptFresh (some callerError)).1 = "" ∧
    (runWith scriptFresh (some callerError)).1 ≠ "1234" ∧
    (runWith scriptFresh (some callerError)).2.err = some callerError ∧
    (runWith scriptFresh (some callerError)).2.err ≠ none := by
  decide

set_option maxHeartbeats 1000000 in
/-- Claim C7, amended: a failed termination-time query is not an error.  The query never
changes the error output.  In every attempt of `delegate_v2`, whatever the error output
holds on entry, in which the query returns a status other than `SOAP_OK`: no write to the
error output comes before the fresh-CSR request; a fresh-CSR request is issued and no
renewal-CSR request; a fresh-CSR request answered with a non-empty text is followed by
a call of the signer, a successful signer call by an upload; and when the upload
succeeds the error output on return is the one on entry, the attempt returning the
identifier when it was unset on entry and the empty string when it was set. -/
theorem delegate_v2_query_failure_is_not_an_error (E : Ext σ) (s : σ)
    (err0 : Option DavixError)
    (endpoint ucred passwd capath : String) (lifetime : Int)
    (ep1 id1 : String) (ret resp : Int)
    (hq : Event.getTerminationTime ep1 id1 ret resp ∈
      (delegate_v2 E (St.init s err0) endpoint ucred passwd capath lifetime).2.trace)
    (hret : ret ≠ SOAP_OK) :
    (∀ (st : St σ) (ep dlg : String), (get_delegated_credentials E st ep dlg).2.err = st.err) ∧
    (∀ e ∈ (delegate_v2 E (St.init s err0) endpoint ucred passwd capath lifetime).2.trace.takeWhile
        (fun e => !e.isGetReq), e.isError = false) ∧
    (∃ e ∈ (delegate_v2 E (St.init s err0) endpoint ucred passwd capath lifetime).2.trace,
      e.isGetReq = true) ∧
    (∀ e ∈ (delegate_v2 E (St.init s err0) endpoint ucred passwd capath lifetime).2.trace,
      e.isRenewReq = false) ∧
    (∀ ep2 id2 resp2, Event.getProxyReq ep2 id2 SOAP_OK resp2 ∈
        (delegate_v2 E (St.init s err0) endpoint ucred passwd capath lifetime).2.trace →
      resp2 ≠ "" →
      ∃ e ∈ (delegate_v2 E (St.init s err0) endpoint ucred passwd capath lifetime).2.trace,
        e.isSign = true) ∧
    (∀ a b c l T, Event.GRSTx509MakeProxyCert a b c l GRST_RET_OK (some T) ∈
        (delegate_v2 E (St.init s err0) endpoint ucred passwd capath lifetime).2.trace →
      ∃ e ∈ (delegate_v2 E (St.init s err0) endpoint ucred passwd capath lifetime).2.trace,
        e.isPut = true) ∧
    (∀ ep3 id3 T, Event.putProxy ep3 id3 T SOAP_OK ∈
        (delegate_v2 E (St.init s err0) endpoint ucred passwd capath lifetime).2.trace →
      (delegate_v2 E (St.init s err0) endpoint ucred passwd capath lifetime).2.err = err0 ∧
      (err0 = none →
        (delegate_v2 E (St.init s err0) endpoint ucred passwd capath lifetime).1 = id1) ∧
      (err0 ≠ none →
        (delegate_v2 E (St.init s err0) endpoint ucred passwd capath lifetime).1 = "")) := by
  refine ⟨fun st ep dlg => ?_, ?_⟩
  · simp only [get_delegated_credentials, St.log]
    split_ifs <;> rfl
  have hp := delegate_v2_path E s err0 endpoint ucred passwd capath lifetime
  generalize (delegate_v2 E (St.init s err0) endpoint ucred passwd capath lifetime).1 = res
    at hp ⊢
  generalize (delegate_v2 E (St.init s err0) endpoint ucred passwd capath lifetime).2.trace = tr
    at hp hq ⊢
  generalize (delegate_v2 E (St.init s err0) endpoint ucred passwd capath lifetime).2.err = err1
    at hp ⊢
  simp only [DelegatePath, CheckPath, RenewPath, GetPath, SignPath, ne_eq, not_true_eq_false,
    false_and, and_false, or_false, false_or, true_and, Bool.false_eq_true, Bool.true_eq_false,
    exists_false, exists_const] at hp
  rcases err0 with _ | e0 <;> casesm* _ ∨ _, _ ∧ _, ∃ _, _ <;> subst_vars <;>
    simp only [List.mem_cons, List.mem_append, List.mem_singleton, List.cons_append,
      List.nil_append, List.not_mem_nil, or_false, false_or, Event.getTerminationTime.injEq,
      Event.time.injEq, Event.soap_ssl_client_context.injEq, Event.renewProxyReq.injEq,
      Event.getProxyReq.injEq, Event.GRSTx509MakeProxyCert.injEq, Event.putProxy.injEq,
      reduceCtorEq] at hq
  all_goals obtain ⟨-, rfl, rfl, -⟩ := hq
  all_goals first
    | exact absurd rfl hret
    | (refine ⟨by simp [List.takeWhile_cons, Event.isGetReq, Event.isError],
         by simp [Event.isGetReq], by simp [Event.isRenewReq], ?_, ?_, ?_⟩
       · intro ep2 id2 resp2 hm hne
         simp only [List.mem_cons, List.mem_append, List.mem_singleton, List.cons_append,
         List.nil_append, List.not_mem_nil, or_false, false_or, Event.getTerminationTime.injEq,
         Event.time.injEq, Event.soap_ssl_client_context.injEq, Event.renewProxyReq.injEq,
         Event.getProxyReq.injEq, Event.GRSTx509MakeProxyCert.injEq, Event.putProxy.injEq,
         reduceCtorEq] at hm
         simp_all [Event.isSign]
       · intro a b c l T hm
         simp only [List.mem_cons, List.mem_append, List.mem_singleton, List.cons_append,
         List.nil_append, List.not_mem_nil, or_false, false_or, Event.getTerminationTime.injEq,
         Event.time.injEq, Event.soap_ssl_client_context.injEq, Event.renewProxyReq.injEq,
         Event.getProxyReq.injEq, Event.GRSTx509MakeProxyCert.injEq, Event.putProxy.injEq,
         reduceCtorEq] at hm <;> simp_all [Event.isPut]
       · intro ep3 id3 T hm
         simp only [List.mem_cons, List.mem_append, List.mem_singleton, List.cons_append,
         List.nil_append, List.not_mem_nil, or_false, false_or, Event.getTerminationTime.injEq,
         Event.time.injEq, Event.soap_ssl_client_context.injEq, Event.renewProxyReq.injEq,
         Event.getProxyReq.injEq, Event.GRSTx509MakeProxyCert.injEq, Event.putProxy.injEq,
         reduceCtorEq] at hm <;> simp_all)

/-- Witness of the amended claim C7: the query is refused with status 1 and every later
step succeeds, in an attempt entered with the error output unset. -/
theorem delegate_v2_query_failure_is_not_an_error_witness :
    Event.getTerminationTime "ep" "1234" 1 0 ∈ (runOf scriptFresh).2.trace ∧
    (1 : Int) ≠ SOAP_OK ∧
    Event.putProxy "ep" "1234" "CERT-A" SOAP_OK ∈ (runOf scriptFresh).2.trace ∧
    (runOf scriptFresh).2.err = none ∧
    (runOf scriptFresh).1 = "1234" :=
  ⟨by decide, by decide, by decide,
   ((delegate_v2_query_failure_is_not_an_error scriptFresh.ext () none
     "ep" "ucred" "pw" "ca" 3600
     "ep" "1234" 1 0 (by decide) (by decide)).2.2.2.2.2.2 "ep" "1234" "CERT-A" (by decide)).1,
   ((delegate_v2_query_failure_is_not_an_error scriptFresh.ext () none
     "ep" "ucred" "pw" "ca" 3600
     "ep" "1234" 1 0 (by decide) (by decide)).2.2.2.2.2.2 "ep" "1234" "CERT-A" (by decide)).2.1
     rfl⟩

/-- Claim C8, as stated, fails: entered with an error in the error output, the attempt
in which the endpoint reports no delegation, the fresh-CSR request returns `CSR-A`, the
signer succeeds on it with output `CERT-A` and the upload succeeds does not return the
identifier with the error output unset: it returns the empty string and the error output
holds the caller's error. -/
theorem delegate_v2_fresh_round_trip_entered_with_error :
    Event.getTerminationTime "ep" "1234" 1 0 ∈ (runWith scriptFresh (some callerError)).2.trace ∧
    (1 : Int) ≠ SOAP_OK ∧
    Event.getProxyReq "ep" "1234" SOAP_OK "CSR-A" ∈
      (runWith scriptFresh (some callerError)).2.trace ∧
    "CSR-A" ≠ "" ∧
    Event.GRSTx509MakeProxyCert "CSR-A" "ucred" "ucred" 3600 GRST_RET_OK (some "CERT-A") ∈
      (runWith scriptFresh (some callerError)).2.trace ∧
    Event.putProxy "ep" "1234" "CERT-A" SOAP_OK ∈
      (runWith scriptFresh (some callerError)).2.trace ∧
    ¬ ((runWith scriptFresh (some callerError)).1 = "1234" ∧
        (runWith scriptFresh (some callerError)).2.err = none) ∧
    (runWith scriptFresh (some callerError)).1 = "" ∧
    (runWith scriptFresh (some callerError)).2.err = some callerError := by
  decide

/-- Claim C8, amended: the data flow of a fresh delegation.  In every attempt of
`delegate_v2`, whatever the error output holds on entry, in which the termination-time
query fails, the fresh-CSR request returns `SOAP_OK` with a non-empty text `C`, the
signer returns `GRST_RET_OK` with output `T` and the upload returns `SOAP_OK`: the signer
was called with the text `C`, the user's credential as certificate and as key and the
caller's `lifetime`; the upload was called with `T`; query, CSR request and upload carry
one identifier; the trace is exactly session, query, fresh-CSR request, signer, upload,
release; the error output on return is the one on entry; and the attempt returns that
identifier when the error output was unset on entry, the empty string when it was
set. -/
theorem delegate_v2_fresh_round_trip (E : Ext σ) (s : σ) (err0 : Option DavixError)
    (endpoint ucred passwd capath : String) (lifetime : Int)
    (ep1 id1 : String) (qret resp : Int) (ep2 id2 C : String)
    (a b c : String) (l : Int) (T : String) (ep3 id3 T3 : String)
    (hq : Event.getTerminationTime ep1 id1 qret resp ∈
      (delegate_v2 E (St.init s err0) endpoint ucred passwd capath lifetime).2.trace)
    (hqf : qret ≠ SOAP_OK)
    (hg : Event.getProxyReq ep2 id2 SOAP_OK C ∈
      (delegate_v2 E (St.init s err0) endpoint ucred passwd capath lifetime).2.trace)
    (_hC : C ≠ "")
    (hs : Event.GRSTx509MakeProxyCert a b c l GRST_RET_OK (some T) ∈
      (delegate_v2 E (St.init s err0) endpoint ucred passwd capath lifetime).2.trace)
    (hu : Event.putProxy ep3 id3 T3 SOAP_OK ∈
      (delegate_v2 E (St.init s err0) endpoint ucred passwd capath lifetime).2.trace) :
    (a = C ∧ b = ucred ∧ c = ucred ∧ l = lifetime) ∧
    T3 = T ∧
    (id1 = id2 ∧ id2 = id3) ∧
    (delegate_v2 E (St.init s err0) endpoint ucred passwd capath lifetime).2.trace =
      [Event.soap_new, Event.soap_ssl_client_context ucred passwd ucred capath 0,
       Event.getTerminationTime endpoint id1 qret resp,
       Event.getProxyReq endpoint id1 SOAP_OK C,
       Event.GRSTx509MakeProxyCert C ucred ucred lifetime GRST_RET_OK (some T),
       Event.putProxy endpoint id1 T SOAP_OK, Event.soap_free, Event.soap_done] ∧
    (delegate_v2 E (St.init s err0) endpoint ucred passwd capath lifetime).2.err = err0 ∧
    (err0 = none →
      (delegate_v2 E (St.init s err0) endpoint ucred passwd capath lifetime).1 = id3) ∧
    (err0 ≠ none →
      (delegate_v2 E (St.init s err0) endpoint ucred passwd capath lifetime).1 = "") := by
  have hp := delegate_v2_path E s err0 endpoint ucred passwd capath lifetime
  generalize (delegate_v2 E (St.init s err0) endpoint ucred passwd capath lifetime).1 = res
    at hp ⊢
  generalize (delegate_v2 E (St.init s err0) endpoint ucred passwd capath lifetime).2.trace = tr
    at hp hq hg hs hu ⊢
  generalize (delegate_v2 E (St.init s err0) endpoint ucred passwd capath lifetime).2.err = err1
    at hp ⊢
  simp only [DelegatePath, CheckPath, RenewPath, GetPath, SignPath, ne_eq, not_true_eq_false,
    false_and, and_false, or_false, false_or, true_and, Bool.false_eq_true, Bool.true_eq_false,
    exists_false, exists_const] at hp
  rcases err0 with _ | e0 <;> casesm* _ ∨ _, _ ∧ _, ∃ _, _ <;> subst_vars <;>
    simp only [List.mem_cons, List.mem_append, List.mem_singleton, List.cons_append,
      List.nil_append, List.not_mem_nil, or_false, false_or, Event.getTerminationTime.injEq,
      Event.time.injEq, Event.soap_ssl_client_context.injEq, Event.renewProxyReq.injEq,
      Event.getProxyReq.injEq, Event.GRSTx509MakeProxyCert.injEq, Event.putProxy.injEq,
      reduceCtorEq] at hq hg hs hu
  all_goals simp_all

/-- Witness of the amended claim C8: no delegation, request text `CSR-A`, certificate
`CERT-A`, in an attempt entered with the error output unset. -/
theorem delegate_v2_fresh_round_trip_witness :
    (1 : Int) ≠ SOAP_OK ∧ "CSR-A" ≠ "" ∧
    (runOf scriptFresh).2.trace =
      [Event.soap_new, Event.soap_ssl_client_context "ucred" "pw" "ucred" "ca" 0,
       Event.getTerminationTime "ep" "1234" 1 0,
       Event.getProxyReq "ep" "1234" SOAP_OK "CSR-A",
       Event.GRSTx509MakeProxyCert "CSR-A" "ucred" "ucred" 3600 GRST_RET_OK (some "CERT-A"),
       Event.putProxy "ep" "1234" "CERT-A" SOAP_OK, Event.soap_free, Event.soap_done] ∧
    (runOf scriptFresh).2.err = none ∧
    (runOf scriptFresh).1 = "1234" :=
  ⟨by decide, by decide,
   (delegate_v2_fresh_round_trip scriptFresh.ext () none "ep" "ucred" "pw" "ca" 3600
     "ep" "1234" 1 0 "ep" "1234" "CSR-A" "CSR-A" "ucred" "ucred" 3600 "CERT-A"
     "ep" "1234" "CERT-A" (by decide) (by decide) (by decide) (by decide) (by decide)
     (by decide)).2.2.2.1,
   (delegate_v2_fresh_round_trip scriptFresh.ext () none "ep" "ucred" "pw" "ca" 3600
     "ep" "1234" 1 0 "ep" "1234" "CSR-A" "CSR-A" "ucred" "ucred" 3600 "CERT-A"
     "ep" "1234" "CERT-A" (by decide) (by decide) (by decide) (by decide) (by decide)
     (by decide)).2.2.2.2.1,
   (delegate_v2_fresh_round_trip scriptFresh.ext () none "ep" "ucred" "pw" "ca" 3600
     "ep" "1234" 1 0 "ep" "1234" "CSR-A" "CSR-A" "ucred" "ucred" 3600 "CERT-A"
     "ep" "1234" "CERT-A" (by decide) (by decide) (by decide) (by decide) (by decide)
     (by decide)).2.2.2.2.2.1 rfl⟩

/-- Claim C9: the empty-CSR case.  In every attempt of `delegate_v2` in which the
fresh-CSR request returns `SOAP_OK` with an empty text, the signer is not called, no
upload is issued, the error output holds the delegation error with the message
`Could not get a request` (the claim's words up to the case of the letters), and the
returned identifier is empty. -/
theorem delegate_v2_empty_csr (E : Ext σ) (s : σ) (err0 : Option DavixError)
    (endpoint ucred passwd capath : String) (lifetime : Int) (ep1 id1 : String)
    (hg : Event.getProxyReq ep1 id1 SOAP_OK "" ∈
      (delegate_v2 E (St.init s err0) endpoint ucred passwd capath lifetime).2.trace) :
    (∀ e ∈ (delegate_v2 E (St.init s err0) endpoint ucred passwd capath lifetime).2.trace,
      e.isSign = false ∧ e.isPut = false) ∧
    (∃ e, (delegate_v2 E (St.init s err0) endpoint ucred passwd capath lifetime).2.err = some e ∧
      e.scope = E.DELEGATION_SCOPE ∧ e.code = StatusCode.DelegationError ∧
      e.msg = "Could not get a request" ∧
      e.msg.data.map Char.toLower = "could not get a request".data) ∧
    (delegate_v2 E (St.init s err0) endpoint ucred passwd capath lifetime).1 = "" := by
  have hlow : "Could not get a request".data.map Char.toLower = "could not get a request".data := by
    decide
  have hp := delegate_v2_path E s err0 endpoint ucred passwd capath lifetime
  generalize (delegate_v2 E (St.init s err0) endpoint ucred passwd capath lifetime).1 = res
    at hp ⊢
  generalize (delegate_v2 E (St.init s err0) endpoint ucred passwd capath lifetime).2.trace = tr
    at hp hg ⊢
  generalize (delegate_v2 E (St.init s err0) endpoint ucred passwd capath lifetime).2.err = err1
    at hp ⊢
  simp only [DelegatePath, CheckPath, RenewPath, GetPath, SignPath, ne_eq, not_true_eq_false,
    false_and, and_false, or_false, false_or, true_and, Bool.false_eq_true, Bool.true_eq_false,
    exists_false, exists_const] at hp
  casesm* _ ∨ _, _ ∧ _, ∃ _, _ <;> subst_vars <;>
    simp only [List.mem_cons, List.mem_append, List.mem_singleton, List.cons_append,
      List.nil_append, List.not_mem_nil, or_false, false_or, Event.getTerminationTime.injEq,
      Event.time.injEq, Event.soap_ssl_client_context.injEq, Event.renewProxyReq.injEq,
      Event.getProxyReq.injEq, Event.GRSTx509MakeProxyCert.injEq, Event.putProxy.injEq,
      reduceCtorEq] at hg
  all_goals simp_all [Event.isSign, Event.isPut, localError]

/-- Witness of claim C9: no delegation, and the fresh request is answered with an empty
text. -/
theorem delegate_v2_empty_csr_witness :
    Event.getProxyReq "ep" "1234" SOAP_OK "" ∈ (runOf scriptEmptyCsr).2.trace ∧
    (∀ e ∈ (runOf scriptEmptyCsr).2.trace, e.isSign = false ∧ e.isPut = false) ∧
    (∃ e, (runOf scriptEmptyCsr).2.err = some e ∧
      e.scope = scriptEmptyCsr.ext.DELEGATION_SCOPE ∧ e.code = StatusCode.DelegationError ∧
      e.msg = "Could not get a request" ∧
      e.msg.data.map Char.toLower = "could not get a request".data) ∧
    (runOf scriptEmptyCsr).1 = "" :=
  ⟨by decide,
   delegate_v2_empty_csr scriptEmptyCsr.ext () none "ep" "ucred" "pw" "ca" 3600 "ep" "1234"
     (by decide)⟩

/-- Claim C10, as stated, fails: entered with an error in the error output, the
attempt that finds a sufficient delegation fails (it returns the empty string, the error
output being set) although the error output was written zero times, not once. -/
theorem delegate_v2_failed_attempt_without_write :
    (runWith scriptSufficient (some callerError)).1 = "" ∧
    (runWith scriptSufficient (some callerError)).2.err ≠ none ∧
    (runWith scriptSufficient (some callerError)).2.trace.countP Event.isError = 0 ∧
    (runWith scriptSufficient (some callerError)).2.trace.countP Event.isError ≠ 1 := by
  decide

/-- Claim C10, amended: errors are written once and nothing is retried.  In every
attempt of `delegate_v2`, whatever the error output holds on entry: the error output is
written at most once; the attempt fails (returns the empty string) exactly when the error
output was set on entry or was written once, so an attempt started with the error output
unset fails exactly when the error output was written once; no remote operation or signer
call comes after the write; and the termination-time query, the fresh-CSR request, the
renewal-CSR request, the upload and the signer are each invoked at most once. -/
theorem delegate_v2_write_once_no_retry (E : Ext σ) (s : σ) (err0 : Option DavixError)
    (endpoint ucred passwd capath : String) (lifetime : Int) :
    let r := delegate_v2 E (St.init s err0) endpoint ucred passwd capath lifetime
    r.2.trace.countP Event.isError ≤ 1 ∧
    (r.1 = "" ↔ (err0 ≠ none ∨ r.2.trace.countP Event.isError = 1)) ∧
    (err0 = none → (r.1 = "" ↔ r.2.trace.countP Event.isError = 1)) ∧
    callsAfterError r.2.trace = [] ∧
    r.2.trace.countP Event.isQuery ≤ 1 ∧
    r.2.trace.countP Event.isGetReq ≤ 1 ∧
    r.2.trace.countP Event.isRenewReq ≤ 1 ∧
    r.2.trace.countP Event.isPut ≤ 1 ∧
    r.2.trace.countP Event.isSign ≤ 1 := by
  intro r
  have hp := delegate_v2_path E s err0 endpoint ucred passwd capath lifetime
  simp only [r]
  generalize (delegate_v2 E (St.init s err0) endpoint ucred passwd capath lifetime).1 = res
    at hp ⊢
  generalize (delegate_v2 E (St.init s err0) endpoint ucred passwd capath lifetime).2.trace = tr
    at hp ⊢
  generalize (delegate_v2 E (St.init s err0) endpoint ucred passwd capath lifetime).2.err = err1
    at hp ⊢
  simp only [DelegatePath, CheckPath, RenewPath, GetPath, SignPath, ne_eq, not_true_eq_false,
    false_and, and_false, or_false, false_or, true_and, Bool.false_eq_true, Bool.true_eq_false,
    exists_false, exists_const] at hp
  rcases err0 with _ | e0 <;> casesm* _ ∨ _, _ ∧ _, ∃ _, _ <;> subst_vars <;>
    simp [callsAfterError, Event.isError, Event.isQuery, Event.isGetReq, Event.isRenewReq,
      Event.isPut, Event.isSign, Event.isCall, List.countP_cons, List.dropWhile_cons]

/-- Claim C11, evaluated on the code: the session is not released on the exit path of
a failed session establishment.  With `soap_ssl_client_context` answering 5, the trace of
the attempt is `soap_new`, the failed call and the write of the error: it holds neither
`soap_free` nor `soap_done`.  On every attempt whose session establishment succeeds,
whatever fails later, the trace ends with `soap_free`, `soap_done`. -/
theorem delegate_v2_session_not_released_on_connect_failure :
    ((runOf scriptSslFails).2.trace =
        [Event.soap_new, Event.soap_ssl_client_context "ucred" "pw" "ucred" "ca" 5,
         Event.setupError ⟨"Davix::Delegation", StatusCode.DelegationError,
           "Could not connect to the delegation endpoint: fault"⟩] ∧
      Event.soap_new ∈ (runOf scriptSslFails).2.trace ∧
      Event.soap_free ∉ (runOf scriptSslFails).2.trace ∧
      Event.soap_done ∉ (runOf scriptSslFails).2.trace ∧
      (runOf scriptSslFails).1 = "") ∧
    (∀ (τ : Type) (E : Ext τ) (s : τ) (err0 : Option DavixError)
        (endpoint ucred passwd capath k p c a : String) (lifetime : Int),
      Event.soap_ssl_client_context k p c a 0 ∈
        (delegate_v2 E (St.init s err0) endpoint ucred passwd capath lifetime).2.trace →
      ∃ evs, (delegate_v2 E (St.init s err0) endpoint ucred passwd capath lifetime).2.trace =
        Event.soap_new :: (evs ++ [Event.soap_free, Event.soap_done]) ∧
        Event.soap_free ∉ evs ∧ Event.soap_done ∉ evs ∧ Event.soap_new ∉ evs) := by
  refine ⟨by decide, ?_⟩
  intro τ E s err0 endpoint ucred passwd capath k p c a lifetime hc
  have hp := delegate_v2_path E s err0 endpoint ucred passwd capath lifetime
  generalize (delegate_v2 E (St.init s err0) endpoint ucred passwd capath lifetime).1 = res
    at hp
  generalize (delegate_v2 E (St.init s err0) endpoint ucred passwd capath lifetime).2.trace = tr
    at hp hc ⊢
  generalize (delegate_v2 E (St.init s err0) endpoint ucred passwd capath lifetime).2.err = err1
    at hp
  simp only [DelegatePath, CheckPath, RenewPath, GetPath, SignPath, ne_eq, not_true_eq_false,
    false_and, and_false, or_false, false_or, true_and, Bool.false_eq_true, Bool.true_eq_false,
    exists_false, exists_const] at hp
  casesm* _ ∨ _, _ ∧ _, ∃ _, _ <;> subst_vars <;>
    simp only [List.mem_cons, List.mem_append, List.mem_singleton, List.cons_append,
      List.nil_append, List.not_mem_nil, or_false, false_or,
      Event.soap_ssl_client_context.injEq, reduceCtorEq] at hc
  · exact absurd hc.2.2.2.2.symm ‹_›
  all_goals
    refine ⟨_, by rw [← List.cons_append], ?_⟩
    simp

set_option maxRecDepth 100000 in
/-- Claim C12, as stated, fails: session establishment fails with a fault whose
diagnostic text `F` is 600 characters long; the message written by `err2davix` is the
step's text followed by the first 511 characters of `F`; it is not that text followed by
`F`, and `F` is not a suffix of it. -/
theorem err2davix_truncates_long_fault :
    ∃ e, (runOf scriptLongFault).2.err = some e ∧
      e.msg = "Could not connect to the delegation endpoint: " ++ ⟨List.replicate 511 'x'⟩ ∧
      e.msg ≠ "Could not connect to the delegation endpoint: " ++ scriptLongFault.fault ∧
      ¬ (scriptLongFault.fault.data <:+ e.msg.data) := by
  refine ⟨_, rfl, by decide, ?_, ?_⟩
  · decide
  · decide

/-- A text shorter than the buffer is printed whole. -/
theorem sprintBounded_of_short (F : String) (len : Nat) (h : F.length < len) :
    sprintBounded F len = F := by
  unfold sprintBounded
  have h2 : F.data.length ≤ len - 1 := by
    have : F.data.length = F.length := rfl
    omega
  rw [List.take_of_length_le h2]

/-- Claim C12, amended: let `soap_sprint_fault` print the diagnostic text `diag s` of the
fault held by the session `s` into the buffer it is given.  Then `err2davix` writes the
error of scope `DELEGATION_SCOPE` and code `DelegationError` whose message is its
argument followed by what fits its 512-byte buffer, the first 511 characters of the
diagnostic text.  When session establishment, the renewal-CSR request, the fresh-CSR
request or the upload fails, that is the error of the attempt, with the text
`Could not connect to the delegation endpoint: ` for the session and `Renewal failed`
for the three requests, and with the diagnostic text of the session as the failed call
left it.  For a diagnostic text `F` shorter than 512 characters the message is the step's
text followed by `F`, and `F` is a suffix of it. -/
theorem err2davix_embeds_bounded_fault (E : Ext σ) (diag : σ → String)
    (hF : ∀ s len, E.soap_sprint_fault s len = sprintBounded (diag s) len) :
    (∀ (st : St σ) (pre : String),
      (err2davix E st pre).err = some ⟨E.DELEGATION_SCOPE, StatusCode.DelegationError,
        pre ++ sprintBounded (diag st.soap) 512⟩) ∧
    (∀ (s : σ) (err0 : Option DavixError) (endpoint ucred passwd capath : String)
        (lifetime : Int),
      (E.soap_ssl_client_context s ucred passwd ucred capath).1 ≠ 0 →
      (delegate_v2 E (St.init s err0) endpoint ucred passwd capath lifetime).2.err =
        some ⟨E.DELEGATION_SCOPE, StatusCode.DelegationError,
          "Could not connect to the delegation endpoint: " ++
            sprintBounded (diag (E.soap_ssl_client_context s ucred passwd ucred capath).2) 512⟩) ∧
    (∀ (st : St σ) (endpoint ucred dlg_id : String) (lifetime : Int),
      (E.soap_call_tns2__renewProxyReq st.soap endpoint dlg_id).1.1 ≠ SOAP_OK →
      (renew_proxy E st endpoint ucred dlg_id lifetime true).err =
        some ⟨E.DELEGATION_SCOPE, StatusCode.DelegationError,
          "Renewal failed" ++
            sprintBounded (diag (E.soap_call_tns2__renewProxyReq st.soap endpoint dlg_id).2) 512⟩) ∧
    (∀ (st : St σ) (endpoint ucred dlg_id : String) (lifetime : Int),
      (E.soap_call_tns2__getProxyReq st.soap endpoint dlg_id).1.1 ≠ SOAP_OK →
      (renew_proxy_get E st endpoint ucred dlg_id lifetime "").err =
        some ⟨E.DELEGATION_SCOPE, StatusCode.DelegationError,
          "Renewal failed" ++
            sprintBounded (diag (E.soap_call_tns2__getProxyReq st.soap endpoint dlg_id).2) 512⟩) ∧
    (∀ (st : St σ) (endpoint ucred dlg_id : String) (lifetime : Int) (certreq T : String),
      certreq ≠ "" →
      (E.GRSTx509MakeProxyCert st.soap certreq ucred ucred lifetime).1 = (GRST_RET_OK, some T) →
      (E.soap_call_tns2__putProxy (E.GRSTx509MakeProxyCert st.soap certreq ucred ucred lifetime).2
        endpoint dlg_id T).1 ≠ SOAP_OK →
      (renew_proxy_sign E st endpoint ucred dlg_id lifetime certreq).err =
        some ⟨E.DELEGATION_SCOPE, StatusCode.DelegationError,
          "Renewal failed" ++
            sprintBounded (diag (E.soap_call_tns2__putProxy
              (E.GRSTx509MakeProxyCert st.soap certreq ucred ucred lifetime).2
              endpoint dlg_id T).2) 512⟩) ∧
    (∀ (F pre : String),
      (sprintBounded F 512).length ≤ 511 ∧
      (F.length < 512 →
        pre ++ sprintBounded F 512 = pre ++ F ∧ F.data <:+ (pre ++ sprintBounded F 512).data)) := by
  refine ⟨?_, ?_, ?_, ?_, ?_, ?_⟩
  · intro st pre
    simp [err2davix, DavixError.setupError, hF]
  · intro s err0 endpoint ucred passwd capath lifetime hc
    simp [delegate_v2, St.init, St.log, hc, err2davix, DavixError.setupError, hF]
  · intro st endpoint ucred dlg_id lifetime hr
    simp [renew_proxy, Ne.symm hr, err2davix, DavixError.setupError, hF]
  · intro st endpoint ucred dlg_id lifetime hr
    have hE : "".isEmpty = true := by decide
    simp [renew_proxy_get, hE, Ne.symm hr, err2davix, DavixError.setupError, hF]
  · intro st endpoint ucred dlg_id lifetime certreq T hC hg hp
    have hC2 : certreq.isEmpty = false := by
      rw [Bool.eq_false_iff]; intro h; exact hC ((String.isEmpty_iff _).1 h)
    have hg1 : (E.GRSTx509MakeProxyCert st.soap certreq ucred ucred lifetime).1.1 = GRST_RET_OK := by
      rw [hg]
    have hg2 : (E.GRSTx509MakeProxyCert st.soap certreq ucred ucred lifetime).1.2 = some T := by
      rw [hg]
    simp [renew_proxy_sign, hC2, hg1, hg2, soap_strdup, Ne.symm hp, err2davix,
      DavixError.setupError, hF]
  · intro F pre
    refine ⟨?_, fun h => ?_⟩
    · simp only [sprintBounded, String.length, List.length_take]
      omega
    · rw [sprintBounded_of_short F 512 h]
      exact ⟨rfl, by simp [String.data_append]⟩

/-- Witness of the amended claim C12: the scripted endpoint prints its diagnostic text
`fault` into the buffer, and session establishment fails. -/
theorem err2davix_embeds_bounded_fault_witness :
    (∀ (s : Unit) (len : Nat),
      scriptSslFails.ext.soap_sprint_fault s len = sprintBounded "fault" len) ∧
    (5 : Int) ≠ 0 ∧
    (runOf scriptSslFails).2.err =
      some ⟨"Davix::Delegation", StatusCode.DelegationError,
        "Could not connect to the delegation endpoint: " ++ sprintBounded "fault" 512⟩ :=
  ⟨fun _ _ => rfl, by decide,
   (err2davix_embeds_bounded_fault scriptSslFails.ext (fun _ => "fault") (fun _ _ => rfl)).2.1
     () none "ep" "ucred" "pw" "ca" 3600 (by decide)⟩

/-- The scan decides the order property, given what was seen before the scanned part. -/
theorem onlyAfterScan_iff (p q : Event → Bool) (seen : Bool) (tr : List Event) :
    onlyAfterScan p q seen tr = true ↔
      ∀ (pre : List Event) (e : Event) (post : List Event),
        tr = pre ++ e :: post → q e = true → seen = true ∨ ∃ x ∈ pre, p x = true := by
  induction tr generalizing seen with
  | nil =>
    simp [onlyAfterScan]
  | cons a tr ih =>
    simp only [onlyAfterScan, Bool.and_eq_true, Bool.or_eq_true, Bool.not_eq_true', ih]
    constructor
    · rintro ⟨h1, h2⟩ pre e post heq hq
      cases pre with
      | nil =>
        simp only [List.nil_append, List.cons.injEq] at heq
        obtain ⟨rfl, -⟩ := heq
        rcases h1 with h1 | h1
        · rw [hq] at h1; exact absurd h1 (by simp)
        · exact Or.inl h1
      | cons b pre =>
        simp only [List.cons_append, List.cons.injEq] at heq
        obtain ⟨rfl, rfl⟩ := heq
        rcases h2 pre e post rfl hq with (h | h) | ⟨x, hx, hpx⟩
        · exact Or.inl h
        · exact Or.inr ⟨a, by simp, h⟩
        · exact Or.inr ⟨x, by simp [hx], hpx⟩
    · intro h
      refine ⟨?_, ?_⟩
      · by_cases hq : q a = true
        · rcases h [] a tr rfl hq with h1 | ⟨x, hx, -⟩
          · exact Or.inr h1
          · simp at hx
        · left; simpa using hq
      · intro pre e post heq hq
        rcases h (a :: pre) e post (by simp [heq]) hq with h1 | ⟨x, hx, hpx⟩
        · exact Or.inl (Or.inl h1)
        · rcases List.mem_cons.1 hx with rfl | hx
          · exact Or.inl (Or.inr hpx)
          · exact Or.inr ⟨x, hx, hpx⟩

/-- The scan started with nothing seen decides `OnlyAfter`. -/
theorem onlyAfter_iff_scan (p q : Event → Bool) (tr : List Event) :
    OnlyAfter p q tr ↔ onlyAfterScan p q false tr = true := by
  rw [onlyAfterScan_iff]
  simp [OnlyAfter]

/-- Claim C13: the order of the steps.  In every attempt of `delegate_v2`: a
termination-time query comes only after a session establishment that returned 0; a CSR
request (renewal or fresh) only after a query; a call of the signer only after a CSR
request that returned `SOAP_OK` with a non-empty text; an upload only after a call of the
signer that returned `GRST_RET_OK`.  Read in order, the steps connect, query, CSR request,
sign, upload never go backwards.  In particular an attempt with an upload has a successful
call of the signer. -/
theorem delegate_v2_step_order (E : Ext σ) (s : σ) (err0 : Option DavixError)
    (endpoint ucred passwd capath : String) (lifetime : Int) :
    let tr := (delegate_v2 E (St.init s err0) endpoint ucred passwd capath lifetime).2.trace
    OnlyAfter Event.isConnected Event.isQuery tr ∧
    OnlyAfter Event.isQuery Event.isCsrReq tr ∧
    OnlyAfter Event.gaveCsr Event.isSign tr ∧
    OnlyAfter Event.signedOk Event.isPut tr ∧
    (tr.filterMap Event.stage).Pairwise (· ≤ ·) ∧
    ((∃ e ∈ tr, e.isPut = true) → ∃ e ∈ tr, e.signedOk = true) := by
  intro tr
  have hp := delegate_v2_path E s err0 endpoint ucred passwd capath lifetime
  simp only [tr, onlyAfter_iff_scan, ← List.any_eq_true]
  generalize (delegate_v2 E (St.init s err0) endpoint ucred passwd capath lifetime).1 = res
    at hp
  generalize (delegate_v2 E (St.init s err0) endpoint ucred passwd capath lifetime).2.trace = tr
    at hp ⊢
  generalize (delegate_v2 E (St.init s err0) endpoint ucred passwd capath lifetime).2.err = err1
    at hp
  simp only [DelegatePath, CheckPath, RenewPath, GetPath, SignPath, ne_eq, not_true_eq_false,
    false_and, and_false, or_false, false_or, true_and, Bool.false_eq_true, Bool.true_eq_false,
    exists_false, exists_const] at hp
  casesm* _ ∨ _, _ ∧ _, ∃ _, _ <;> subst_vars <;>
    simp_all [onlyAfterScan, Event.isConnected, Event.isQuery, Event.isCsrReq, Event.isRenewReq,
      Event.isGetReq, Event.gaveCsr, Event.isSign, Event.signedOk, Event.isPut, Event.stage]

/-- Claim C14: the fallback after an empty renewal answer.  In `renew_proxy` a fresh-CSR
request is issued iff `force` is false, or `force` is true and the renewal-CSR request
returned `SOAP_OK` with an empty text.  In the second case a fresh-CSR request answered
`SOAP_OK` with a non-empty text is followed by a call of the signer on that text; and
there is an attempt that succeeds after both requests: 100 seconds left, 3600 asked, an
empty renewal answer. -/
theorem renew_proxy_fallback_after_empty_renewal (E : Ext σ) (s : σ) (err0 : Option DavixError)
    (endpoint ucred dlg_id : String) (lifetime : Int) (force : Bool) :
    let tr := (renew_proxy E (St.init s err0) endpoint ucred dlg_id lifetime force).trace
    ((∃ e ∈ tr, e.isGetReq = true) ↔
      (force = false ∨
        (force = true ∧ Event.renewProxyReq endpoint dlg_id SOAP_OK "" ∈ tr))) ∧
    (∀ C : String, Event.renewProxyReq endpoint dlg_id SOAP_OK "" ∈ tr →
      Event.getProxyReq endpoint dlg_id SOAP_OK C ∈ tr → C ≠ "" →
      ∃ ret T, Event.GRSTx509MakeProxyCert C ucred ucred lifetime ret T ∈ tr) ∧
    ((runOf scriptRenewEmpty).1 = "1234" ∧ (runOf scriptRenewEmpty).2.err = none ∧
      (runOf scriptRenewEmpty).2.trace =
        [Event.soap_new, Event.soap_ssl_client_context "ucred" "pw" "ucred" "ca" 0,
         Event.getTerminationTime "ep" "1234" SOAP_OK 1100, Event.time 1000,
         Event.renewProxyReq "ep" "1234" SOAP_OK "",
         Event.getProxyReq "ep" "1234" SOAP_OK "CSR-A",
         Event.GRSTx509MakeProxyCert "CSR-A" "ucred" "ucred" 3600 GRST_RET_OK (some "CERT-A"),
         Event.putProxy "ep" "1234" "CERT-A" SOAP_OK, Event.soap_free, Event.soap_done]) := by
  intro tr
  refine ⟨?_, ?_, by decide⟩
  all_goals
    obtain ⟨evs, h1, hp⟩ := renew_proxy_path E (St.init s err0) endpoint ucred dlg_id lifetime force
    simp only [St.init, List.nil_append] at h1 hp
    simp only [tr, St.init, h1, ← List.any_eq_true]
    generalize (renew_proxy E ⟨s, err0, []⟩ endpoint ucred dlg_id lifetime force).err = err1 at hp
    simp only [RenewPath, GetPath, SignPath, ne_eq, not_true_eq_false,
      false_and, and_false, or_false, false_or, true_and, Bool.false_eq_true, Bool.true_eq_false,
      exists_false, exists_const] at hp
  · casesm* _ ∨ _, _ ∧ _, ∃ _, _ <;> subst_vars <;> simp_all [Event.isGetReq] <;>
      intro h <;> exact absurd h.symm ‹_›
  · intro C hr hg hC
    casesm* _ ∨ _, _ ∧ _, ∃ _, _ <;> subst_vars <;>
      simp only [List.mem_cons, List.mem_append, List.mem_singleton, List.cons_append,
        List.nil_append, List.not_mem_nil, or_false, false_or, Event.renewProxyReq.injEq,
        Event.getProxyReq.injEq, Event.GRSTx509MakeProxyCert.injEq, reduceCtorEq] at hr hg ⊢ <;>
      simp_all

/-- Claim C15: the result depends on the incoming error output.  `delegate_v2` returns
the empty string exactly when the error output is set on return, and otherwise `1234`.
Entered with the error output set it returns the empty string whatever happens, and it
returns `1234` only if the error output was unset on entry and no step failed and no
error was written.  Entered with an error, the attempt in which every step succeeds and
the attempt that finds a sufficient delegation both return the empty string. -/
theorem delegate_v2_depends_on_incoming_error (E : Ext σ) (s : σ) (err0 : Option DavixError)
    (endpoint ucred passwd capath : String) (lifetime : Int) :
    let r := delegate_v2 E (St.init s err0) endpoint ucred passwd capath lifetime
    (r.1 = "" ↔ r.2.err ≠ none) ∧
    (r.1 = "" ∨ r.1 = "1234") ∧
    (err0 ≠ none → r.1 = "") ∧
    (r.1 = "1234" → err0 = none ∧ ∀ e ∈ r.2.trace, e.failed = false ∧ e.isError = false) ∧
    ((delegate_v2 scriptFresh.ext (St.init () (some ⟨"caller", StatusCode.InvalidArgument, "old"⟩))
        "ep" "ucred" "pw" "ca" 3600).1 = "" ∧
      Event.putProxy "ep" "1234" "CERT-A" SOAP_OK ∈
        (delegate_v2 scriptFresh.ext (St.init () (some ⟨"caller", StatusCode.InvalidArgument, "old"⟩))
          "ep" "ucred" "pw" "ca" 3600).2.trace ∧
      (delegate_v2 scriptSufficient.ext
        (St.init () (some ⟨"caller", StatusCode.InvalidArgument, "old"⟩))
        "ep" "ucred" "pw" "ca" 3600).1 = "" ∧
      (∀ e ∈ (delegate_v2 scriptSufficient.ext
          (St.init () (some ⟨"caller", StatusCode.InvalidArgument, "old"⟩))
          "ep" "ucred" "pw" "ca" 3600).2.trace, e.failed = false ∧ e.isError = false)) := by
  intro r
  refine ⟨?_, ?_, ?_, ?_, by decide⟩
  all_goals
    have hp := delegate_v2_path E s err0 endpoint ucred passwd capath lifetime
    simp only [r]
    generalize (delegate_v2 E (St.init s err0) endpoint ucred passwd capath lifetime).1 = res
      at hp ⊢
    generalize (delegate_v2 E (St.init s err0) endpoint ucred passwd capath lifetime).2.trace = tr
      at hp ⊢
    generalize (delegate_v2 E (St.init s err0) endpoint ucred passwd capath lifetime).2.err = err1
      at hp ⊢
    simp only [DelegatePath, CheckPath, RenewPath, GetPath, SignPath, ne_eq, not_true_eq_false,
      false_and, and_false, or_false, false_or, true_and, Bool.false_eq_true, Bool.true_eq_false,
      exists_false, exists_const] at hp
    rcases err0 with _ | e0
  all_goals
    casesm* _ ∨ _, _ ∧ _, ∃ _, _ <;> subst_vars <;>
      simp_all [Event.failed, Event.isError]


/-- `findIdx` finds nothing exactly when the character does not occur. -/
theorem Tool.findIdx_eq_none (c : Char) (l : List Char) :
    Tool.findIdx c l = none ↔ c ∉ l := by
  induction l with
  | nil => simp [Tool.findIdx]
  | cons x xs ih =>
    by_cases h : x = c
    · simp [Tool.findIdx, h]
    · simp [Tool.findIdx, h, ih, Ne.symm h]

/-- The position found by `findIdx` splits the list around the first occurrence. -/
theorem Tool.findIdx_eq_some (c : Char) (l : List Char) (n : Nat)
    (h : Tool.findIdx c l = some n) :
    n < l.length ∧ l.take n ++ c :: l.drop (n + 1) = l ∧ c ∉ l.take n := by
  induction l generalizing n with
  | nil => simp [Tool.findIdx] at h
  | cons x xs ih =>
    by_cases hx : x = c
    · simp [Tool.findIdx, hx] at h
      subst h
      simp [hx]
    · simp only [Tool.findIdx, hx, if_false, Option.map_eq_some'] at h
      obtain ⟨m, hm, rfl⟩ := h
      obtain ⟨h1, h2, h3⟩ := ih m hm
      refine ⟨by simp [h1], by simp [h2], ?_⟩
      simp [h3, Ne.symm hx]

/-- Claim C16: `set_header_field` always returns.  It returns -1, with the error
`InvalidArgument` of scope `scope_params` written and the options unchanged, iff the
argument holds no `:`.  Otherwise it returns 0, leaves the error output as it was, and adds
exactly one header field `(name, value)` after the earlier ones, with
`name ++ ":" ++ value` the argument and no `:` in `name`: the name is the text before the
first `:` and the value the text after it. -/
theorem set_header_field_splits_at_first_colon (arg : String) (st : St Tool.OptParams) :
    ∃ ret st1, Tool.set_header_field arg st = some (ret, st1) ∧
      ((ret = -1 ∧
          st1.err = some ⟨Tool.scope_params, StatusCode.InvalidArgument,
            " Invalid header field argument"⟩ ∧
          st1.soap = st.soap) ↔ ':' ∉ arg.data) ∧
      (':' ∈ arg.data →
        ret = 0 ∧ st1.err = st.err ∧
        ∃ name value,
          st1.soap.params.headers = st.soap.params.headers ++ [(name, value)] ∧
          name ++ ":" ++ value = arg ∧ ':' ∉ name.data) := by
  unfold Tool.set_header_field Tool.find
  cases hf : Tool.findIdx ':' arg.data with
  | none =>
    have hno := (Tool.findIdx_eq_none _ _).1 hf
    exact ⟨_, _, rfl, by simp [hno, DavixError.setupError], fun h => absurd h hno⟩
  | some pos =>
    obtain ⟨h1, h2, h3⟩ := Tool.findIdx_eq_some _ _ _ hf
    have hin : ':' ∈ arg.data := by
      rw [← h2]; simp
    have hs1 : Tool.substr arg 0 (some pos) = some ⟨arg.data.take pos⟩ := by
      simp [Tool.substr]
    have hs2 : Tool.substr arg (pos + 1) none = some ⟨arg.data.drop (pos + 1)⟩ := by
      have hlen : ¬ arg.data.length < pos + 1 := by omega
      simp only [Tool.substr, hlen, if_false]
    simp only [hs1, hs2]
    refine ⟨_, _, rfl, by simp [hin], fun _ => ⟨rfl, rfl, _, _, rfl, ?_, h3⟩⟩
    apply String.ext
    simpa [String.data_append] using h2

end Davix
